import Mathlib

/-!
# SA-63 backend: CRUD controllers over the ent repository

A shallow embedding of the four gin controllers in `backend/controllers`
(Device, RepairInvoice, Status, Symptom) and of the schema declarations in
`backend/ent/schema`.  The generated ent client is not part of the sources, so
the repository operations the controllers call are modelled from the
specification (section 4.1); every such definition says so in its doc comment.

Conventions of the embedding:
* Go `int` is taken to be 64 bits wide, so `int(v)` of an `int64` is `v`.
* A handler is a function from the client (the store state) and the request
  context to the response written with `c.JSON` and the client afterwards.
* Entities are records of named values, the shape they have as JSON bodies.
-/

set_option autoImplicit false

namespace SA63

/-- Equality of results is decidable when it is for errors and for values. -/
instance instDecidableEqExcept {ε α : Type} [DecidableEq ε] [DecidableEq α] :
    DecidableEq (Except ε α) := fun a b =>
  match a, b with
  | .ok x, .ok y => if h : x = y then isTrue (by rw [h]) else isFalse (fun h2 => h (by cases h2; rfl))
  | .error x, .error y => if h : x = y then isTrue (by rw [h]) else isFalse (fun h2 => h (by cases h2; rfl))
  | .ok _, .error _ => isFalse (fun h => by cases h)
  | .error _, .ok _ => isFalse (fun h => by cases h)

/-! ## strconv.ParseInt -/

/-- The two failure causes of `strconv.ParseInt`. -/
inductive NumErrKind where
  | ErrSyntax
  | ErrRange
  deriving DecidableEq, Repr

/-- The `*strconv.NumError` value: the function, the input text and the cause. -/
structure NumError where
  Func : String
  Num : String
  Err : NumErrKind
  deriving DecidableEq, Repr

/-- Largest `uint64`. -/
def maxUint64 : Nat := 2 ^ 64 - 1

/-- The digit loop of `strconv.ParseUint(s, 10, 64)`: a byte outside `0..9` is a
syntax error (letters give a digit that is not below the base), and overflow of
the accumulator is a range error, each reported at the first byte showing it. -/
def parseUintLoop : List Char → Nat → Except NumErrKind Nat
  | [], n => .ok n
  | ch :: rest, n =>
    if 48 ≤ ch.toNat ∧ ch.toNat ≤ 57 then
      if n ≥ maxUint64 / 10 + 1 then .error .ErrRange
      else
        let n1 := n * 10 + (ch.toNat - 48)
        if n1 > maxUint64 then .error .ErrRange else parseUintLoop rest n1
    else .error .ErrSyntax

/-- The call `strconv.ParseUint(s, 10, 64)`, on the characters of `s`. -/
def ParseUint (s : List Char) : Except NumErrKind Nat :=
  match s with
  | [] => .error .ErrSyntax
  | _ => parseUintLoop s 0

/-- The call `strconv.ParseInt(s, 10, 64)`: an optional sign, then `ParseUint`, then
the signed range check; a range error of `ParseUint` stays a range error. -/
def ParseInt (s : String) : Except NumError Int :=
  match s.data with
  | [] => .error ⟨"ParseInt", s, .ErrSyntax⟩
  | ch :: rest =>
    let neg := ch = '-'
    let digits := if ch = '+' ∨ ch = '-' then rest else ch :: rest
    match ParseUint digits with
    | .error .ErrSyntax => .error ⟨"ParseInt", s, .ErrSyntax⟩
    | .error .ErrRange => .error ⟨"ParseInt", s, .ErrRange⟩
    | .ok un =>
      if ¬ neg ∧ un ≥ 2 ^ 63 then .error ⟨"ParseInt", s, .ErrRange⟩
      else if neg ∧ un > 2 ^ 63 then .error ⟨"ParseInt", s, .ErrRange⟩
      else .ok (if neg then - (un : Int) else (un : Int))

/-! ## Entities, schema and client state -/

/-- A field value: the schema declares integer and string fields only. -/
inductive Value where
  | int (v : Int)
  | str (s : String)
  deriving DecidableEq, Repr

/-- An entity value (`ent.Device`, `ent.Status`, ...): the store identifier, the
fields keyed by their Go struct field name, and the edges it holds, each an edge
name with the identifier of the row it points to. -/
structure Entity where
  ID : Int
  fields : List (String × Value)
  edges : List (String × Int)
  deriving DecidableEq, Repr

/-- Read of an integer struct field such as `obj.Age`: the Go zero value `0` when
the body did not set it. -/
def Entity.intField (obj : Entity) (name : String) : Value :=
  (obj.fields.lookup name).getD (.int 0)

/-- Read of a string struct field such as `obj.Name`: the Go zero value `""` when
the body did not set it. -/
def Entity.strField (obj : Entity) (name : String) : Value :=
  (obj.fields.lookup name).getD (.str "")

/-- The entity clients the controllers reach through `ctl.client`.  `User` has no
schema under `ent/schema`; the Symptom controller refers to it all the same. -/
inductive Kind where
  | Device
  | RepairInvoice
  | Status
  | Symptom
  | User
  deriving DecidableEq, Repr

/-- A field declaration of a schema, with the options the sources use. -/
structure Field where
  name : String
  isString : Bool
  unique : Bool
  notEmpty : Bool
  deriving DecidableEq, Repr

/-- The declaration `field.Int(name)`. -/
def field.Int (name : String) : Field := ⟨name, false, false, false⟩

/-- The declaration `field.String(name)`. -/
def field.String (name : String) : Field := ⟨name, true, false, false⟩

/-- The option `.Unique()` of a field. -/
def Field.Unique (f : Field) : Field := { f with unique := true }

/-- The option `.NotEmpty()` of a string field. -/
def Field.NotEmpty (f : Field) : Field := { f with notEmpty := true }

/-- An edge declaration of a schema: `inverse` tells an `edge.From` from an
`edge.To`, and `ref` is the name an inverse edge gives to `Ref`. -/
structure Edge where
  name : String
  target : Kind
  inverse : Bool
  ref : Option String
  unique : Bool
  required : Bool
  deriving DecidableEq, Repr

/-- The declaration `edge.To(name, T.Type)`. -/
def edge.To (name : String) (target : Kind) : Edge :=
  ⟨name, target, false, none, false, false⟩

/-- The declaration `edge.From(name, T.Type)`. -/
def edge.From (name : String) (target : Kind) : Edge :=
  ⟨name, target, true, none, false, false⟩

/-- The option `.Ref(name)` of an inverse edge. -/
def Edge.Ref (e : Edge) (name : String) : Edge := { e with ref := some name }

/-- The option `.Unique()` of an edge. -/
def Edge.Unique (e : Edge) : Edge := { e with unique := true }

/-- The option `.Required()` of an edge. -/
def Edge.Required (e : Edge) : Edge := { e with required := true }

/-- What a schema type declares: `Fields()` and `Edges()`. -/
structure Schema where
  Fields : List Field
  Edges : List Edge
  deriving DecidableEq, Repr

/-- Schema `Device` of `ent/schema/Device.go`. -/
def schema.Device : Schema where
  Fields := [
    (field.Int "Device_ID").Unique,
    (field.Int "Customer_ID").Unique ]
  Edges := [
    (edge.To "devices" .RepairInvoice).Unique ]

/-- Schema `RepairInvoice` of `ent/schema/RepairInvoice.go`. -/
def schema.RepairInvoice : Schema where
  Fields := [
    (field.Int "RepairInvoice_ID").Unique,
    (field.Int "Status_ID").Unique,
    (field.Int "Device_ID").Unique,
    (field.Int "Symptom_ID").Unique ]
  Edges := [
    (((edge.From "device" .Device).Ref "devices").Unique).Required,
    (edge.From "statusinvoice" .Status).Ref "statusInvoice",
    (edge.From "symptom" .Symptom).Ref "symptoms" ]

/-- Schema `Status` of `ent/schema/Status.go`. -/
def schema.Status : Schema where
  Fields := [
    (field.Int "Status_ID").Unique,
    (field.String "Status_name").NotEmpty ]
  Edges := [
    edge.To "statusInvoice" .RepairInvoice ]

/-- Schema `Symptom` of `ent/schema/Symptom.go`. -/
def schema.Symptom : Schema where
  Fields := [
    (field.Int "Symptom_ID").Unique,
    (field.String "Symptom_name").NotEmpty ]
  Edges := [
    edge.To "symptoms" .RepairInvoice ]

/-- The schema behind each entity client; nothing is declared for `User`. -/
def schemaOf : Kind → Schema
  | .Device => schema.Device
  | .RepairInvoice => schema.RepairInvoice
  | .Status => schema.Status
  | .Symptom => schema.Symptom
  | .User => ⟨[], []⟩

/-- Pascal-casing of the characters of a schema field name: an underscore is
dropped and the letter after it, like the first letter, is put in upper case. -/
def pascalChars : Bool → List Char → List Char
  | _, [] => []
  | up, ch :: rest =>
    if ch = '_' then pascalChars true rest
    else (if up then ch.toUpper else ch) :: pascalChars false rest

/-- Modelled from the spec: the generated entity code is missing, and with it the
naming of struct fields and setters after the schema fields the specification
lists (`Status_name`, `Symptom_name`, ...).  The name is the pascal-cased schema
name, as the call `SetSymptomName` of `CreateSymptom` shows for `Symptom_name`. -/
def pascal (name : String) : String := ⟨pascalChars true name.data⟩

/-- The store behind `ent.Client`: the rows of each entity client. -/
structure Client where
  Device : List Entity
  RepairInvoice : List Entity
  Status : List Entity
  Symptom : List Entity
  User : List Entity
  deriving DecidableEq, Repr

/-- The rows behind `ctl.client.K`. -/
def Client.rows (client : Client) : Kind → List Entity
  | .Device => client.Device
  | .RepairInvoice => client.RepairInvoice
  | .Status => client.Status
  | .Symptom => client.Symptom
  | .User => client.User

/-- The client with the rows behind `ctl.client.K` replaced. -/
def Client.setRows (client : Client) (k : Kind) (rows : List Entity) : Client :=
  match k with
  | .Device => { client with Device := rows }
  | .RepairInvoice => { client with RepairInvoice := rows }
  | .Status => { client with Status := rows }
  | .Symptom => { client with Symptom := rows }
  | .User => { client with User := rows }

/-! ## Repository operations

The generated ent client (`ent.Client`, the builders and queries) is not among
the sources; the operations are modelled from section 4.1 of the specification,
the constraints they enforce being read off the schema declarations above. -/

/-- The error taxonomy of the specification (section 7). -/
inductive RepoError where
  | ValidationError
  | ConflictError
  | NotFoundError
  | StoreError
  deriving DecidableEq, Repr

/-- The greatest identifier among the rows, `0` when there is none above it. -/
def maxID : List Entity → Int
  | [] => 0
  | e :: rest => max e.ID (maxID rest)

/-- Modelled from the spec: the generated create builder is missing.  The
identifier the store assigns on creation, "previously unused": one above every
identifier present. -/
def freshID (rows : List Entity) : Int := maxID rows + 1

/-- Modelled from the spec: the generated validators are missing.  "String
fields declared non-empty must fail validation when empty or absent": every
`NotEmpty` field of the schema is present with a non-empty string. -/
def requiredFields (sch : Schema) (fields : List (String × Value)) : Bool :=
  sch.Fields.all fun f =>
    !f.notEmpty ||
      match fields.lookup (pascal f.name) with
      | some (.str s) => decide (s ≠ "")
      | _ => false

/-- Modelled from the spec: the generated edge checks are missing.  "Required
edges must resolve to an existing target": every `Required` edge of the schema
is set, to the identifier of a row of its target. -/
def requiredEdges (client : Client) (sch : Schema) (edges : List (String × Int)) : Bool :=
  sch.Edges.all fun e =>
    !e.required ||
      match edges.lookup e.name with
      | some id => (client.rows e.target).any fun r => decide (r.ID = id)
      | none => false

/-- Modelled from the spec: the store's uniqueness constraints are missing.
"Uniqueness constraints must not collide with existing rows": a value given for
a `Unique` field is held by none of the other rows. -/
def uniqueFields (sch : Schema) (others : List Entity) (fields : List (String × Value)) : Bool :=
  sch.Fields.all fun f =>
    !f.unique ||
      match fields.lookup (pascal f.name) with
      | some v => others.all fun r => decide (r.fields.lookup (pascal f.name) ≠ some v)
      | none => true

/-- Modelled from the spec: the store's uniqueness constraints are missing.
"Unique on an edge means a given foreign target may back at most one local row
through that edge". -/
def uniqueEdges (sch : Schema) (others : List Entity) (edges : List (String × Int)) : Bool :=
  sch.Edges.all fun e =>
    !e.unique ||
      match edges.lookup e.name with
      | some id => others.all fun r => decide (r.edges.lookup e.name ≠ some id)
      | none => true

/-- The create builder `ctl.client.K.Create()` with the setters called on it. -/
structure CreateBuilder where
  kind : Kind
  fields : List (String × Value)
  edges : List (String × Int)
  deriving DecidableEq, Repr

/-- The call `ctl.client.K.Create()`: a builder with nothing set. -/
def Client.Create (k : Kind) : CreateBuilder := ⟨k, [], []⟩

/-- A setter call `.SetName(v)` on a create builder, `name` being the setter's
name without `Set`: the struct field it fills. -/
def CreateBuilder.Set (b : CreateBuilder) (name : String) (v : Value) : CreateBuilder :=
  { b with fields := b.fields.filter (fun p => p.1 != name) ++ [(name, v)] }

/-- Modelled from the spec: the generated `Save` of a create builder is missing.
Create "fails with ValidationError when required fields/edges are missing,
ConflictError when a uniqueness constraint is violated", and otherwise "returns
the persisted entity including its assigned identifier". -/
def CreateBuilder.Save (b : CreateBuilder) (client : Client) :
    Except RepoError (Entity × Client) :=
  let sch := schemaOf b.kind
  let rows := client.rows b.kind
  if !(requiredFields sch b.fields && requiredEdges client sch b.edges) then
    .error .ValidationError
  else if !(uniqueFields sch rows b.fields && uniqueEdges sch rows b.edges) then
    .error .ConflictError
  else
    let u : Entity := ⟨freshID rows, b.fields, b.edges⟩
    .ok (u, client.setRows b.kind (rows ++ [u]))

/-- The predicate `IDEQ(id)`. -/
def IDEQ (id : Int) : Entity → Bool := fun e => decide (e.ID = id)

/-- Modelled from the spec: the generated query is missing.  Get "returns the
single matching entity or fails with NotFoundError if zero or more-than-one rows
match the equality predicate". -/
def Only (rows : List Entity) (p : Entity → Bool) : Except RepoError Entity :=
  match rows.filter p with
  | [u] => .ok u
  | _ => .error .NotFoundError

/-- Modelled from the spec: the generated query is missing.  List "returns the
ordered sequence of matching rows", at most `limit` of them after the first
`offset`; "negative values are not rejected (left to the store's native
behavior)", taken here as that of an SQL engine which accepts them: a negative
limit places no bound and a negative offset skips nothing. -/
def All (rows : List Entity) (limit offset : Int) : Except RepoError (List Entity) :=
  let rest := rows.drop offset.toNat
  .ok (if limit < 0 then rest else rest.take limit.toNat)

/-- Modelled from the spec: the generated delete builder is missing.  Delete
"removes the entity identified by id; fails with NotFoundError if no such entity
exists", with no cascade to other entity kinds. -/
def DeleteOneID (client : Client) (k : Kind) (id : Int) : Except RepoError Client :=
  if (client.rows k).any (IDEQ id) then
    .ok (client.setRows k ((client.rows k).filter fun e => !IDEQ id e))
  else .error .NotFoundError

/-- Modelled from the spec: the generated update builder is missing.  Update
"requires that id be a pre-existing identifier; overwrites the addressed entity
wholesale with the fields present in input; fails with ValidationError on
malformed input, NotFoundError if the id does not exist, ConflictError on
uniqueness violation".  The edges of the row are not part of the input and are
kept. -/
def UpdateOne (client : Client) (k : Kind) (obj : Entity) :
    Except RepoError (Entity × Client) :=
  let sch := schemaOf k
  let rows := client.rows k
  match rows.filter (IDEQ obj.ID) with
  | [] => .error .NotFoundError
  | old :: _ =>
    if !requiredFields sch obj.fields then .error .ValidationError
    else if !uniqueFields sch (rows.filter fun e => !IDEQ obj.ID e) obj.fields then
      .error .ConflictError
    else
      let u : Entity := { old with fields := obj.fields }
      .ok (u, client.setRows k
        (rows.map fun e => if IDEQ obj.ID e then { e with fields := obj.fields } else e))

/-! ## gin context and responses -/

/-- The text put under the `error` key of a `gin.H` body: a fixed message, or
`err.Error()` of a parse or repository error, kept as the error it renders. -/
inductive ErrorText where
  | text (msg : String)
  | parse (err : NumError)
  | repo (err : RepoError)
  deriving DecidableEq, Repr

/-- The value handed to `c.JSON`: `gin.H` with an `error` or a `result` key, an
entity, or a slice of entities. -/
inductive Payload where
  | H_error (msg : ErrorText)
  | H_result (msg : String)
  | entity (u : Entity)
  | entities (us : List Entity)
  deriving DecidableEq, Repr

/-- A response written by `c.JSON(code, body)`. -/
structure Response where
  code : Nat
  body : Payload
  deriving DecidableEq, Repr

/-- The parts of `*gin.Context` the handlers read: the path parameters, the URL
query values, and the outcome of `c.ShouldBind(&obj)` on the request body
(`none` when binding returns an error, else the bound entity value). -/
structure Context where
  Params : List (String × String)
  QueryArgs : List (String × String)
  ShouldBind : Option Entity
  deriving DecidableEq, Repr

/-- The call `c.Param(key)`: the empty string when the parameter is absent. -/
def Context.Param (c : Context) (key : String) : String :=
  (c.Params.lookup key).getD ""

/-- The call `c.Query(key)`: the empty string when the key is absent. -/
def Context.Query (c : Context) (key : String) : String :=
  (c.QueryArgs.lookup key).getD ""

/-! ## Controllers

The four controllers repeat one text per operation; the shared text is a
definition taking what varies (the entity client addressed, the fixed messages,
the setters called), and each handler of the sources is its instance. -/

/-- The operations of the generated client that a handler calls, each a function
to its outcome.  The handlers below are written against any such repository, so
that what they answer is fixed for every outcome a store call can have, the
failures of the store itself (`StoreError`) included. -/
structure Repository where
  Save : CreateBuilder → Client → Except RepoError (Entity × Client)
  Only : List Entity → (Entity → Bool) → Except RepoError Entity
  All : List Entity → Int → Int → Except RepoError (List Entity)
  DeleteOneID : Client → Kind → Int → Except RepoError Client
  UpdateOne : Client → Kind → Entity → Except RepoError (Entity × Client)

/-- The repository modelled from the specification: the operations of the section
"Repository operations" above. -/
def entRepository : Repository :=
  ⟨CreateBuilder.Save, Only, All, DeleteOneID, UpdateOne⟩

/-- The body of `CreateDevice`, `CreateStatus`, `CreateSymptom` and
`CreateRepairInvoice`, over the repository `repo`: bind the body, build and
save, answer with the saved entity.  `bindingFailed` is the fixed message of a
failed bind and `build` the builder with the setters the handler calls. -/
def createHandlerOn (repo : Repository) (bindingFailed : String)
    (build : Entity → CreateBuilder) (ctl : Client) (c : Context) : Response × Client :=
  match c.ShouldBind with
  | none => (⟨400, .H_error (.text bindingFailed)⟩, ctl)
  | some obj =>
    match repo.Save (build obj) ctl with
    | .error _ => (⟨400, .H_error (.text "saving failed")⟩, ctl)
    | .ok (u, ctl2) => (⟨200, .entity u⟩, ctl2)

/-- The body of `CreateDevice`, `CreateStatus`, `CreateSymptom` and
`CreateRepairInvoice` on the modelled repository. -/
def createHandler (bindingFailed : String) (build : Entity → CreateBuilder)
    (ctl : Client) (c : Context) : Response × Client :=
  createHandlerOn entRepository bindingFailed build ctl c

/-- The body of `GetDevice`, `GetStatus`, `GetSymptom` and `GetRepairInvoice`, on
the entity client `k`, over the repository `repo`. -/
def getHandlerOn (repo : Repository) (k : Kind) (ctl : Client) (c : Context) :
    Response × Client :=
  match ParseInt (c.Param "id") with
  | .error err => (⟨400, .H_error (.parse err)⟩, ctl)
  | .ok id =>
    match repo.Only (ctl.rows k) (IDEQ id) with
    | .error err => (⟨404, .H_error (.repo err)⟩, ctl)
    | .ok u => (⟨200, .entity u⟩, ctl)

/-- The body of `GetDevice`, `GetStatus`, `GetSymptom` and `GetRepairInvoice`, on
the entity client `k` of the modelled repository. -/
def getHandler (k : Kind) (ctl : Client) (c : Context) : Response × Client :=
  getHandlerOn entRepository k ctl c

/-- The value of `limit` (with `key = "limit"`, `dflt = 10`) and of `offset`
(`"offset"`, `0`) in a List handler: the default, replaced by the parsed query
value when that is not empty and parses. -/
def pageParam (c : Context) (key : String) (dflt : Int) : Int :=
  let query := c.Query key
  if query ≠ "" then
    match ParseInt query with
    | .ok v => v
    | .error _ => dflt
  else dflt

/-- The body of `ListDevice`, `ListStatus` and `ListRepairInvoice`, on the entity
client `k`, over the repository `repo`. -/
def listHandlerOn (repo : Repository) (k : Kind) (ctl : Client) (c : Context) :
    Response × Client :=
  let limit := pageParam c "limit" 10
  let offset := pageParam c "offset" 0
  match repo.All (ctl.rows k) limit offset with
  | .error err => (⟨400, .H_error (.repo err)⟩, ctl)
  | .ok devices => (⟨200, .entities devices⟩, ctl)

/-- The body of `ListDevice`, `ListStatus` and `ListRepairInvoice`, on the entity
client `k` of the modelled repository. -/
def listHandler (k : Kind) (ctl : Client) (c : Context) : Response × Client :=
  listHandlerOn entRepository k ctl c

/-- The body of `DeleteDevice`, `DeleteStatus`, `DeleteSymptom` and
`DeleteRepairInvoice`, on the entity client `k`, over the repository `repo`. -/
def deleteHandlerOn (repo : Repository) (k : Kind) (ctl : Client) (c : Context) :
    Response × Client :=
  match ParseInt (c.Param "id") with
  | .error err => (⟨400, .H_error (.parse err)⟩, ctl)
  | .ok id =>
    match repo.DeleteOneID ctl k id with
    | .error err => (⟨404, .H_error (.repo err)⟩, ctl)
    | .ok ctl2 => (⟨200, .H_result ("ok deleted " ++ toString id)⟩, ctl2)

/-- The body of `DeleteDevice`, `DeleteStatus`, `DeleteSymptom` and
`DeleteRepairInvoice`, on the entity client `k` of the modelled repository. -/
def deleteHandler (k : Kind) (ctl : Client) (c : Context) : Response × Client :=
  deleteHandlerOn entRepository k ctl c

/-- The body of `UpdateDevice`, `UpdateStatus`, `UpdateSymptom` and
`UpdateRepairInvoice`, on the entity client `k`, over the repository `repo`. -/
def updateHandlerOn (repo : Repository) (bindingFailed : String) (k : Kind)
    (ctl : Client) (c : Context) : Response × Client :=
  match ParseInt (c.Param "id") with
  | .error err => (⟨400, .H_error (.parse err)⟩, ctl)
  | .ok id =>
    match c.ShouldBind with
    | none => (⟨400, .H_error (.text bindingFailed)⟩, ctl)
    | some obj =>
      match repo.UpdateOne ctl k { obj with ID := id } with
      | .error _ => (⟨400, .H_error (.text "update failed")⟩, ctl)
      | .ok (u, ctl2) => (⟨200, .entity u⟩, ctl2)

/-- The body of `UpdateDevice`, `UpdateStatus`, `UpdateSymptom` and
`UpdateRepairInvoice`, on the entity client `k` of the modelled repository. -/
def updateHandler (bindingFailed : String) (k : Kind)
    (ctl : Client) (c : Context) : Response × Client :=
  updateHandlerOn entRepository bindingFailed k ctl c

/-- Handler `CreateDevice`: `Create().SetAge(obj.Age).SetName(obj.Name).Save`. -/
def CreateDevice : Client → Context → Response × Client :=
  createHandler "device binding failed" fun obj =>
    ((Client.Create .Device).Set "Age" (obj.intField "Age")).Set "Name" (obj.strField "Name")

/-- Handler `GetDevice`: queries `ctl.client.Device`. -/
def GetDevice : Client → Context → Response × Client := getHandler .Device

/-- Handler `ListDevice`: queries `ctl.client.Device`. -/
def ListDevice : Client → Context → Response × Client := listHandler .Device

/-- Handler `DeleteDevice`: deletes from `ctl.client.Device`. -/
def DeleteDevice : Client → Context → Response × Client := deleteHandler .Device

/-- Handler `UpdateDevice`: updates in `ctl.client.Device`. -/
def UpdateDevice : Client → Context → Response × Client :=
  updateHandler "device binding failed" .Device

/-- Handler `CreateRepairInvoice`: `Create().SetRepairInvoceId(obj.Age).Save`; no
edge is set. -/
def CreateRepairInvoice : Client → Context → Response × Client :=
  createHandler "RepairInvoice binding failed" fun obj =>
    (Client.Create .RepairInvoice).Set "RepairInvoceId" (obj.intField "Age")

/-- Handler `GetRepairInvoice`: queries `ctl.client.RepairInvoice`. -/
def GetRepairInvoice : Client → Context → Response × Client := getHandler .RepairInvoice

/-- Handler `ListRepairInvoice`: queries `ctl.client.RepairInvoice`. -/
def ListRepairInvoice : Client → Context → Response × Client := listHandler .RepairInvoice

/-- Handler `DeleteRepairInvoice`: deletes from `ctl.client.RepairInvoice`. -/
def DeleteRepairInvoice : Client → Context → Response × Client :=
  deleteHandler .RepairInvoice

/-- Handler `UpdateRepairInvoice`: updates in `ctl.client.RepairInvoice`. -/
def UpdateRepairInvoice : Client → Context → Response × Client :=
  updateHandler "RepairInvoice binding failed" .RepairInvoice

/-- Handler `CreateStatus`: `Create().SetAge(obj.Age).SetName(obj.Name).Save`. -/
def CreateStatus : Client → Context → Response × Client :=
  createHandler "status binding failed" fun obj =>
    ((Client.Create .Status).Set "Age" (obj.intField "Age")).Set "Name" (obj.strField "Name")

/-- Handler `GetStatus`: queries `ctl.client.Status`. -/
def GetStatus : Client → Context → Response × Client := getHandler .Status

/-- Handler `ListStatus`: queries `ctl.client.Status`. -/
def ListStatus : Client → Context → Response × Client := listHandler .Status

/-- Handler `DeleteStatus`: deletes from `ctl.client.Status`. -/
def DeleteStatus : Client → Context → Response × Client := deleteHandler .Status

/-- Handler `UpdateStatus`: updates in `ctl.client.Status`. -/
def UpdateStatus : Client → Context → Response × Client :=
  updateHandler "status binding failed" .Status

/-- Handler `CreateSymptom`:
`Create().SetSymtomId(obj.Symptom).SetSymptomName(obj.Symptom).Save`. -/
def CreateSymptom : Client → Context → Response × Client :=
  createHandler "Symptom binding failed" fun obj =>
    ((Client.Create .Symptom).Set "SymtomId" (obj.strField "Symptom")).Set "SymptomName"
      (obj.strField "Symptom")

/-- Handler `GetSymptom`: the query runs on `ctl.client.User` with `user.IDEQ`,
not on `ctl.client.Symptom`. -/
def GetSymptom : Client → Context → Response × Client := getHandler .User

/-- The body of `ListSymptom` over the repository `repo`: the query runs on
`ctl.client.User` and its result `users` is dropped; the body written on success
is `symptoms`, a name the function does not declare, taken here as a
parameter. -/
def ListSymptomOn (repo : Repository) (symptoms : List Entity) (ctl : Client) (c : Context) :
    Response × Client :=
  let limit := pageParam c "limit" 10
  let offset := pageParam c "offset" 0
  match repo.All (ctl.rows .User) limit offset with
  | .error err => (⟨400, .H_error (.repo err)⟩, ctl)
  | .ok _ => (⟨200, .entities symptoms⟩, ctl)

/-- Handler `ListSymptom`: the query runs on `ctl.client.User` and its result
`users` is dropped; the body written on success is `symptoms`, a name the
function does not declare, taken here as a parameter. -/
def ListSymptom (symptoms : List Entity) (ctl : Client) (c : Context) : Response × Client :=
  ListSymptomOn entRepository symptoms ctl c

/-- Handler `DeleteSymptom`: deletes from `ctl.client.Symptom`. -/
def DeleteSymptom : Client → Context → Response × Client := deleteHandler .Symptom

/-- Handler `UpdateSymptom`: updates in `ctl.client.Symptom`. -/
def UpdateSymptom : Client → Context → Response × Client :=
  updateHandler "symptom binding failed" .Symptom

/-! ## Statements used by the theorems -/

/-- A client with no rows. -/
def emptyClient : Client := ⟨[], [], [], [], []⟩

/-- A request context with the path parameter `id` set and nothing else. -/
def idContext (id : String) (body : Option Entity) : Context := ⟨[("id", id)], [], body⟩

/-- The pagination value as the specification words it: the default "when absent
or unparseable" (an empty value does not parse), the parsed integer otherwise. -/
def specPageParam (raw : Option String) (dflt : Int) : Int :=
  match raw with
  | none => dflt
  | some s =>
    match ParseInt s with
    | .ok v => v
    | .error _ => dflt

/-- The response a List handler gives to the outcome of the store query. -/
def listResponse : Except RepoError (List Entity) → Response
  | .error err => ⟨400, .H_error (.repo err)⟩
  | .ok us => ⟨200, .entities us⟩

/-- A client with rows of every declared kind and no User row. -/
def sampleClient : Client where
  Device := [⟨1, [("Age", .int 5), ("Name", .str "x")], []⟩,
    ⟨2, [("Age", .int 7), ("Name", .str "y")], []⟩]
  RepairInvoice := [⟨1, [("RepairInvoceId", .int 3)], [("device", 1)]⟩]
  Status := [⟨1, [("StatusName", .str "open")], []⟩]
  Symptom := [⟨1, [("SymptomName", .str "cough")], []⟩]
  User := []

/-- The Delete contract of a handler on the rows of kind `k`, for a request whose
path identifier parses to `id`: with no row of that identifier the answer is 404
and the store is unchanged; with one, the answer is 200, the rows of that
identifier and no others are removed, and a further Delete of the identifier on
the resulting state answers 404. -/
def DeleteContract (handler : Client → Context → Response × Client) (k : Kind)
    (ctl : Client) (c : Context) (id : Int) : Prop :=
  ((∀ e ∈ ctl.rows k, e.ID ≠ id) →
      handler ctl c = (⟨404, .H_error (.repo .NotFoundError)⟩, ctl)) ∧
  ((∃ e ∈ ctl.rows k, e.ID = id) →
      (handler ctl c).1.code = 200 ∧
      (handler ctl c).2 = ctl.setRows k ((ctl.rows k).filter fun e => decide (e.ID ≠ id)) ∧
      ∀ c2 : Context, ParseInt (c2.Param "id") = .ok id →
        handler (handler ctl c).2 c2 =
          (⟨404, .H_error (.repo .NotFoundError)⟩, (handler ctl c).2))

/-- An update input the repository accepts for the rows of kind `k`: a row has
the identifier, every `NotEmpty` field of the schema is given non-empty, and no
value given for a `Unique` field is held by a row of another identifier. -/
def UpdateAccepted (k : Kind) (ctl : Client) (id : Int) (obj : Entity) : Prop :=
  (∃ e ∈ ctl.rows k, e.ID = id) ∧
    requiredFields (schemaOf k) obj.fields = true ∧
    uniqueFields (schemaOf k) ((ctl.rows k).filter fun e => !IDEQ id e) obj.fields = true

/-- The full-record overwrite by an Update handler on the rows of kind `k`: the
answer is 200 with an entity of identifier `id` whose fields are those of the
input `obj`; the store afterwards is the old one with the fields of every row of
that identifier replaced by those of `obj`, and holds the returned entity. -/
def Overwritten (handler : Client → Context → Response × Client) (k : Kind)
    (ctl : Client) (c : Context) (id : Int) (obj : Entity) : Prop :=
  ∃ u : Entity,
    handler ctl c =
      (⟨200, .entity u⟩, ctl.setRows k ((ctl.rows k).map fun e =>
        if IDEQ id e then { e with fields := obj.fields } else e)) ∧
    u.ID = id ∧ u.fields = obj.fields ∧ u ∈ (handler ctl c).2.rows k ∧
    ∀ e ∈ (handler ctl c).2.rows k, e.ID = id → e.fields = obj.fields

/-- The handlers that read the path parameter `id`: Get, Update and Delete of the
four controllers. -/
def idHandlers : List (Client → Context → Response × Client) :=
  [GetDevice, UpdateDevice, DeleteDevice,
    GetRepairInvoice, UpdateRepairInvoice, DeleteRepairInvoice,
    GetStatus, UpdateStatus, DeleteStatus,
    GetSymptom, UpdateSymptom, DeleteSymptom]

/-- How a controller maps "no row has the addressed identifier": Get (querying
the rows of kind `kq`) and Delete answer 404 with the repository's not-found
error; Update, for a body that binds, answers 400 with the fixed text "update
failed".  The store is unchanged in each case. -/
def NotFoundMapping (get upd del : Client → Context → Response × Client) (kq k : Kind)
    (ctl : Client) (c : Context) (id : Int) : Prop :=
  ((∀ e ∈ ctl.rows kq, e.ID ≠ id) →
      get ctl c = (⟨404, .H_error (.repo .NotFoundError)⟩, ctl)) ∧
  ((∀ e ∈ ctl.rows k, e.ID ≠ id) →
      del ctl c = (⟨404, .H_error (.repo .NotFoundError)⟩, ctl) ∧
      ∀ obj, c.ShouldBind = some obj →
        UpdateOne ctl k { obj with ID := id } = .error .NotFoundError ∧
        upd ctl c = (⟨400, .H_error (.text "update failed")⟩, ctl))

/-- The builder `CreateDevice` saves: `Create().SetAge(obj.Age).SetName(obj.Name)`. -/
def DeviceCreate (obj : Entity) : CreateBuilder :=
  ((Client.Create .Device).Set "Age" (obj.intField "Age")).Set "Name" (obj.strField "Name")

/-- The builder `CreateRepairInvoice` saves: `Create().SetRepairInvoceId(obj.Age)`. -/
def RepairInvoiceCreate (obj : Entity) : CreateBuilder :=
  (Client.Create .RepairInvoice).Set "RepairInvoceId" (obj.intField "Age")

/-- The builder `CreateStatus` saves: `Create().SetAge(obj.Age).SetName(obj.Name)`. -/
def StatusCreate (obj : Entity) : CreateBuilder :=
  ((Client.Create .Status).Set "Age" (obj.intField "Age")).Set "Name" (obj.strField "Name")

/-- The builder `CreateSymptom` saves:
`Create().SetSymtomId(obj.Symptom).SetSymptomName(obj.Symptom)`. -/
def SymptomCreate (obj : Entity) : CreateBuilder :=
  ((Client.Create .Symptom).Set "SymtomId" (obj.strField "Symptom")).Set "SymptomName"
    (obj.strField "Symptom")

/-- Every step of a Create handler succeeds on the repository `repo`: the body
binds and the save of the builder returns an entity. -/
def createSucceeds (repo : Repository) (build : Entity → CreateBuilder) (ctl : Client)
    (c : Context) : Prop :=
  ∃ obj, c.ShouldBind = some obj ∧ ∃ r, repo.Save (build obj) ctl = .ok r

/-- Every step of a Get handler on the rows of kind `k` succeeds on the
repository `repo`: the path identifier parses and the query returns an entity. -/
def getSucceeds (repo : Repository) (k : Kind) (ctl : Client) (c : Context) : Prop :=
  ∃ id, ParseInt (c.Param "id") = .ok id ∧ ∃ u, repo.Only (ctl.rows k) (IDEQ id) = .ok u

/-- The one step of a List handler on the rows of kind `k` succeeds on the
repository `repo`: the query returns a sequence. -/
def listSucceeds (repo : Repository) (k : Kind) (ctl : Client) (c : Context) : Prop :=
  ∃ us, repo.All (ctl.rows k) (pageParam c "limit" 10) (pageParam c "offset" 0) = .ok us

/-- Every step of a Delete handler on the rows of kind `k` succeeds on the
repository `repo`: the path identifier parses and the store delete returns
without error. -/
def deleteSucceeds (repo : Repository) (k : Kind) (ctl : Client) (c : Context) : Prop :=
  ∃ id, ParseInt (c.Param "id") = .ok id ∧ ∃ ctl2, repo.DeleteOneID ctl k id = .ok ctl2

/-- Every step of an Update handler on the rows of kind `k` succeeds on the
repository `repo`: the path identifier parses, the body binds, and the store
update returns an entity. -/
def updateSucceeds (repo : Repository) (k : Kind) (ctl : Client) (c : Context) : Prop :=
  ∃ id, ParseInt (c.Param "id") = .ok id ∧
    ∃ obj, c.ShouldBind = some obj ∧ ∃ r, repo.UpdateOne ctl k { obj with ID := id } = .ok r

/-- A repository whose every call fails with the store's own error. -/
def failingRepository : Repository :=
  ⟨fun _ _ => .error .StoreError, fun _ _ => .error .StoreError,
    fun _ _ _ => .error .StoreError, fun _ _ _ => .error .StoreError,
    fun _ _ _ => .error .StoreError⟩

/-- The status contract of the answer `r` of a handler: its status is 200, 400 or
404, it is 200 exactly when every step succeeded, and it is below 500. -/
def StatusContract (r : Response × Client) (succeeds : Prop) : Prop :=
  (r.1.code = 200 ∨ r.1.code = 400 ∨ r.1.code = 404) ∧
    (r.1.code = 200 ↔ succeeds) ∧ r.1.code < 500

/-! ## Lemmas on the client state and the repository -/

theorem createHandler_def (msg : String) (build : Entity → CreateBuilder) (ctl : Client)
    (c : Context) :
    createHandler msg build ctl c =
      match c.ShouldBind with
      | none => (⟨400, .H_error (.text msg)⟩, ctl)
      | some obj =>
        match (build obj).Save ctl with
        | .error _ => (⟨400, .H_error (.text "saving failed")⟩, ctl)
        | .ok (u, ctl2) => (⟨200, .entity u⟩, ctl2) := rfl

theorem getHandler_def (k : Kind) (ctl : Client) (c : Context) :
    getHandler k ctl c =
      match ParseInt (c.Param "id") with
      | .error err => (⟨400, .H_error (.parse err)⟩, ctl)
      | .ok id =>
        match Only (ctl.rows k) (IDEQ id) with
        | .error err => (⟨404, .H_error (.repo err)⟩, ctl)
        | .ok u => (⟨200, .entity u⟩, ctl) := rfl

theorem listHandler_def (k : Kind) (ctl : Client) (c : Context) :
    listHandler k ctl c =
      match All (ctl.rows k) (pageParam c "limit" 10) (pageParam c "offset" 0) with
      | .error err => (⟨400, .H_error (.repo err)⟩, ctl)
      | .ok devices => (⟨200, .entities devices⟩, ctl) := rfl

theorem ListSymptom_def (symptoms : List Entity) (ctl : Client) (c : Context) :
    ListSymptom symptoms ctl c =
      match All (ctl.rows .User) (pageParam c "limit" 10) (pageParam c "offset" 0) with
      | .error err => (⟨400, .H_error (.repo err)⟩, ctl)
      | .ok _ => (⟨200, .entities symptoms⟩, ctl) := rfl

theorem deleteHandler_def (k : Kind) (ctl : Client) (c : Context) :
    deleteHandler k ctl c =
      match ParseInt (c.Param "id") with
      | .error err => (⟨400, .H_error (.parse err)⟩, ctl)
      | .ok id =>
        match DeleteOneID ctl k id with
        | .error err => (⟨404, .H_error (.repo err)⟩, ctl)
        | .ok ctl2 => (⟨200, .H_result ("ok deleted " ++ toString id)⟩, ctl2) := rfl

theorem updateHandler_def (msg : String) (k : Kind) (ctl : Client) (c : Context) :
    updateHandler msg k ctl c =
      match ParseInt (c.Param "id") with
      | .error err => (⟨400, .H_error (.parse err)⟩, ctl)
      | .ok id =>
        match c.ShouldBind with
        | none => (⟨400, .H_error (.text msg)⟩, ctl)
        | some obj =>
          match UpdateOne ctl k { obj with ID := id } with
          | .error _ => (⟨400, .H_error (.text "update failed")⟩, ctl)
          | .ok (u, ctl2) => (⟨200, .entity u⟩, ctl2) := rfl

@[simp]
theorem rows_setRows_same (client : Client) (k : Kind) (rows : List Entity) :
    (client.setRows k rows).rows k = rows := by
  cases k <;> rfl

theorem rows_setRows_other (client : Client) (k k2 : Kind) (rows : List Entity)
    (h : k2 ≠ k) : (client.setRows k rows).rows k2 = client.rows k2 := by
  cases k <;> cases k2 <;> first | rfl | exact absurd rfl h

theorem setRows_rows_self (client : Client) (k : Kind) :
    client.setRows k (client.rows k) = client := by
  cases k <;> rfl

theorem le_maxID (rows : List Entity) (e : Entity) (h : e ∈ rows) : e.ID ≤ maxID rows := by
  induction rows with
  | nil => cases h
  | cons r rest ih =>
    rcases List.mem_cons.mp h with h1 | h1
    · subst h1
      exact le_max_left _ _
    · exact le_trans (ih h1) (le_max_right _ _)

theorem lt_freshID (rows : List Entity) (e : Entity) (h : e ∈ rows) : e.ID < freshID rows := by
  have := le_maxID rows e h
  unfold freshID
  omega

theorem filter_IDEQ_eq_nil (rows : List Entity) (id : Int) (h : ∀ e ∈ rows, e.ID ≠ id) :
    rows.filter (IDEQ id) = [] := by
  rw [List.filter_eq_nil_iff]
  intro e he
  simp [IDEQ, h e he]

theorem Only_eq_notFound (rows : List Entity) (id : Int) (h : ∀ e ∈ rows, e.ID ≠ id) :
    Only rows (IDEQ id) = .error .NotFoundError := by
  simp [Only, filter_IDEQ_eq_nil rows id h]

theorem Only_append_fresh (rows : List Entity) (u : Entity) (h : ∀ e ∈ rows, e.ID ≠ u.ID) :
    Only (rows ++ [u]) (IDEQ u.ID) = .ok u := by
  simp [Only, List.filter_append, filter_IDEQ_eq_nil rows u.ID h, IDEQ]

/-- What a successful save gives: the entity carries the fresh identifier and is
appended to the rows of the builder's kind. -/
theorem Save_ok (b : CreateBuilder) (client client2 : Client) (u : Entity)
    (h : b.Save client = .ok (u, client2)) :
    u = ⟨freshID (client.rows b.kind), b.fields, b.edges⟩ ∧
      client2 = client.setRows b.kind (client.rows b.kind ++ [u]) := by
  unfold CreateBuilder.Save at h
  simp only [] at h
  split at h
  · cases h
  · split at h
    · cases h
    · injection h with h
      injection h with h1 h2
      subst h1
      exact ⟨rfl, h2.symm⟩

/-- Create then Get on one entity client: a 200 answer of the create text carries
an identifier no row had, and the get text on the same client `k` then answers
200 with that entity.  The Device handlers are an instance; the Symptom handlers
are not, `GetSymptom` addressing another client. -/
theorem createHandler_then_getHandler (msg : String) (build : Entity → CreateBuilder)
    (k : Kind) (hk : ∀ obj, (build obj).kind = k) (ctl ctl2 : Client) (c : Context)
    (u : Entity) (h : createHandler msg build ctl c = (⟨200, .entity u⟩, ctl2)) :
    (∀ e ∈ ctl.rows k, e.ID ≠ u.ID) ∧
      ∀ c2 : Context, ParseInt (c2.Param "id") = .ok u.ID →
        getHandler k ctl2 c2 = (⟨200, .entity u⟩, ctl2) := by
  rw [createHandler_def] at h
  cases hb : c.ShouldBind with
  | none => simp [hb] at h
  | some obj =>
    simp only [hb] at h
    cases hs : (build obj).Save ctl with
    | error e => simp [hs] at h
    | ok r =>
      obtain ⟨u1, ctl1⟩ := r
      simp only [hs] at h
      injection h with h1 h2
      injection h1 with _ h3
      injection h3 with h3
      subst h3
      subst h2
      obtain ⟨hu, hc⟩ := Save_ok _ _ _ _ hs
      rw [hk obj] at hu hc
      have hfresh : ∀ e ∈ ctl.rows k, e.ID ≠ u1.ID := by
        intro e he
        have := lt_freshID _ e he
        rw [hu]
        simp only
        omega
      refine ⟨hfresh, ?_⟩
      intro c2 hp
      rw [getHandler_def]
      rw [hp, hc]
      simp only [rows_setRows_same]
      rw [Only_append_fresh _ _ hfresh]

/-- The Device handlers keep the create-then-get contract: an entity created by
`CreateDevice` has an identifier no Device row had, and `GetDevice` with that
identifier on the resulting state answers 200 with it. -/
theorem CreateDevice_then_GetDevice (ctl ctl2 : Client) (c c2 : Context) (u : Entity)
    (hp : ParseInt (c2.Param "id") = .ok u.ID)
    (h : CreateDevice ctl c = (⟨200, .entity u⟩, ctl2)) :
    (∀ e ∈ ctl.Device, e.ID ≠ u.ID) ∧ GetDevice ctl2 c2 = (⟨200, .entity u⟩, ctl2) := by
  have := createHandler_then_getHandler _ _ .Device (fun _ => rfl) ctl ctl2 c u h
  exact ⟨this.1, this.2 c2 hp⟩

theorem ParseInt_empty : ParseInt "" = .error ⟨"ParseInt", "", .ErrSyntax⟩ := by decide

/-- The pagination value a List handler computes is the one the specification
words: the default when the key is absent, empty or does not parse. -/
theorem pageParam_eq_spec (c : Context) (key : String) (dflt : Int) :
    pageParam c key dflt = specPageParam (c.QueryArgs.lookup key) dflt := by
  unfold pageParam specPageParam Context.Query
  cases hq : c.QueryArgs.lookup key with
  | none => simp
  | some s =>
    by_cases hs : s = ""
    · subst hs
      simp [ParseInt_empty]
    · simp [hs]

theorem specPageParam_unparseable (s : String) (dflt : Int)
    (h : (ParseInt s).toOption = none) : specPageParam (some s) dflt = dflt := by
  unfold specPageParam
  cases hp : ParseInt s with
  | error e => simp [hp]
  | ok v => simp [hp, Except.toOption] at h

theorem pageParam_unparseable (c : Context) (key : String) (dflt : Int)
    (h : (ParseInt (c.Query key)).toOption = none) : pageParam c key dflt = dflt := by
  unfold pageParam
  cases hp : ParseInt (c.Query key) with
  | error e => simp [hp]
  | ok v => simp [hp, Except.toOption] at h

/-! ## Theorems for the claims -/

/-- C1 (fails on the code).  A Symptom is created with a valid body on the empty
store: `CreateSymptom` answers 200 with the entity of identifier 1, stored in the
Symptom rows; `GetSymptom` with that identifier on the resulting state answers
404, because it queries the User client.  The claim asks for 200 with the
created entity. -/
theorem CreateSymptom_then_GetSymptom_not_found :
    CreateSymptom emptyClient ⟨[], [], some ⟨0, [("Symptom", .str "cough")], []⟩⟩ =
        (⟨200, .entity ⟨1, [("SymtomId", .str "cough"), ("SymptomName", .str "cough")], []⟩⟩,
          { emptyClient with Symptom :=
              [⟨1, [("SymtomId", .str "cough"), ("SymptomName", .str "cough")], []⟩] }) ∧
      GetSymptom
          (CreateSymptom emptyClient ⟨[], [], some ⟨0, [("Symptom", .str "cough")], []⟩⟩).2
          (idContext "1" none) =
        (⟨404, .H_error (.repo .NotFoundError)⟩,
          { emptyClient with Symptom :=
              [⟨1, [("SymtomId", .str "cough"), ("SymptomName", .str "cough")], []⟩] }) := by
  decide

/-- C2.  Every List handler queries the store with the limit and offset the
specification words (10 and 0 when the query value is absent, empty or does not
parse as a base-10 int64; the parsed value otherwise, zero and negative values
included) and answers with the outcome of that query; `ListSymptom` does so on
the User client.  In particular a request whose `limit` and `offset` do not parse
is answered like the request `c0` that omits both, on every store state. -/
theorem List_pagination (ctl : Client) (c : Context) (symptoms : List Entity) :
    (ListDevice ctl c =
        (listResponse (All ctl.Device (specPageParam (c.QueryArgs.lookup "limit") 10)
          (specPageParam (c.QueryArgs.lookup "offset") 0)), ctl) ∧
      ListStatus ctl c =
        (listResponse (All ctl.Status (specPageParam (c.QueryArgs.lookup "limit") 10)
          (specPageParam (c.QueryArgs.lookup "offset") 0)), ctl) ∧
      ListRepairInvoice ctl c =
        (listResponse (All ctl.RepairInvoice (specPageParam (c.QueryArgs.lookup "limit") 10)
          (specPageParam (c.QueryArgs.lookup "offset") 0)), ctl) ∧
      ListSymptom symptoms ctl c =
        (match All ctl.User (specPageParam (c.QueryArgs.lookup "limit") 10)
            (specPageParam (c.QueryArgs.lookup "offset") 0) with
          | .error err => ⟨400, .H_error (.repo err)⟩
          | .ok _ => ⟨200, .entities symptoms⟩, ctl)) ∧
    ∀ c0 : Context,
      c0.QueryArgs.lookup "limit" = none → c0.QueryArgs.lookup "offset" = none →
      (ParseInt (c.Query "limit")).toOption = none →
      (ParseInt (c.Query "offset")).toOption = none →
      ListDevice ctl c = ListDevice ctl c0 ∧ ListStatus ctl c = ListStatus ctl c0 ∧
        ListRepairInvoice ctl c = ListRepairInvoice ctl c0 ∧
        ListSymptom symptoms ctl c = ListSymptom symptoms ctl c0 := by
  have hlist : ∀ (k : Kind) (d : Context), listHandler k ctl d =
      (listResponse (All (ctl.rows k) (specPageParam (d.QueryArgs.lookup "limit") 10)
        (specPageParam (d.QueryArgs.lookup "offset") 0)), ctl) := by
    intro k d
    rw [listHandler_def]
    simp only [pageParam_eq_spec]
    cases All (ctl.rows k) (specPageParam (d.QueryArgs.lookup "limit") 10)
      (specPageParam (d.QueryArgs.lookup "offset") 0) <;> rfl
  have hsym : ∀ d : Context, ListSymptom symptoms ctl d =
      (match All ctl.User (specPageParam (d.QueryArgs.lookup "limit") 10)
          (specPageParam (d.QueryArgs.lookup "offset") 0) with
        | .error err => ⟨400, .H_error (.repo err)⟩
        | .ok _ => ⟨200, .entities symptoms⟩, ctl) := by
    intro d
    rw [ListSymptom_def]
    simp only [pageParam_eq_spec, Client.rows]
    cases All ctl.User (specPageParam (d.QueryArgs.lookup "limit") 10)
      (specPageParam (d.QueryArgs.lookup "offset") 0) <;> rfl
  refine ⟨⟨hlist .Device c, hlist .Status c, hlist .RepairInvoice c, hsym c⟩, ?_⟩
  intro c0 h1 h2 h3 h4
  have hl : specPageParam (c.QueryArgs.lookup "limit") 10 = 10 := by
    rw [← pageParam_eq_spec]
    exact pageParam_unparseable c "limit" _ h3
  have ho : specPageParam (c.QueryArgs.lookup "offset") 0 = 0 := by
    rw [← pageParam_eq_spec]
    exact pageParam_unparseable c "offset" _ h4
  have hl0 : specPageParam (c0.QueryArgs.lookup "limit") 10 = 10 := by rw [h1]; rfl
  have ho0 : specPageParam (c0.QueryArgs.lookup "offset") 0 = 0 := by rw [h2]; rfl
  refine ⟨?_, ?_, ?_, ?_⟩
  · show listHandler .Device ctl c = listHandler .Device ctl c0
    rw [hlist, hlist, hl, ho, hl0, ho0]
  · show listHandler .Status ctl c = listHandler .Status ctl c0
    rw [hlist, hlist, hl, ho, hl0, ho0]
  · show listHandler .RepairInvoice ctl c = listHandler .RepairInvoice ctl c0
    rw [hlist, hlist, hl, ho, hl0, ho0]
  · rw [hsym, hsym, hl, ho, hl0, ho0]

theorem listHandler_eq (k : Kind) (ctl : Client) (c : Context) :
    listHandler k ctl c =
      (⟨200, .entities
        (if specPageParam (c.QueryArgs.lookup "limit") 10 < 0 then
          (ctl.rows k).drop (specPageParam (c.QueryArgs.lookup "offset") 0).toNat
        else ((ctl.rows k).drop (specPageParam (c.QueryArgs.lookup "offset") 0).toNat).take
          (specPageParam (c.QueryArgs.lookup "limit") 10).toNat)⟩, ctl) := by
  rw [listHandler_def]
  unfold All
  simp only [pageParam_eq_spec]

theorem listHandler_length_le (k : Kind) (ctl : Client) (c : Context)
    (h : 0 ≤ specPageParam (c.QueryArgs.lookup "limit") 10) :
    ∃ us, listHandler k ctl c = (⟨200, .entities us⟩, ctl) ∧
      (us.length : Int) ≤ specPageParam (c.QueryArgs.lookup "limit") 10 := by
  refine ⟨_, listHandler_eq k ctl c, ?_⟩
  rw [if_neg (by omega)]
  have h1 := List.length_take_le (specPageParam (c.QueryArgs.lookup "limit") 10).toNat
    ((ctl.rows k).drop (specPageParam (c.QueryArgs.lookup "offset") 0).toNat)
  have h2 := Int.toNat_of_nonneg h
  omega

/-- C3 (fails as stated).  With `limit=-1` the effective limit is -1, the List
handler answers 200 with both Device rows of the store, and the length of that
sequence is not at most the effective limit: no sequence has negative length. -/
theorem ListDevice_negative_limit_unbounded :
    ListDevice sampleClient ⟨[], [("limit", "-1")], none⟩ =
        (⟨200, .entities sampleClient.Device⟩, sampleClient) ∧
      specPageParam (some "-1") 10 = -1 ∧
      ¬ ((sampleClient.Device.length : Int) ≤ specPageParam (some "-1") 10) := by
  decide

/-- C3 (amended).  When the effective limit (the parsed `limit`, or 10 when it is
absent or does not parse) is not negative, `ListDevice`, `ListStatus` and
`ListRepairInvoice` answer 200 with a sequence of length at most that limit, on
every store state and for every `offset`. -/
theorem List_length_le_limit (ctl : Client) (c : Context)
    (h : 0 ≤ specPageParam (c.QueryArgs.lookup "limit") 10) :
    (∃ us, ListDevice ctl c = (⟨200, .entities us⟩, ctl) ∧
        (us.length : Int) ≤ specPageParam (c.QueryArgs.lookup "limit") 10) ∧
    (∃ us, ListStatus ctl c = (⟨200, .entities us⟩, ctl) ∧
        (us.length : Int) ≤ specPageParam (c.QueryArgs.lookup "limit") 10) ∧
    (∃ us, ListRepairInvoice ctl c = (⟨200, .entities us⟩, ctl) ∧
        (us.length : Int) ≤ specPageParam (c.QueryArgs.lookup "limit") 10) :=
  ⟨listHandler_length_le .Device ctl c h, listHandler_length_le .Status ctl c h,
    listHandler_length_le .RepairInvoice ctl c h⟩

/-- Witness of C3 (amended): `limit=1` on a store with two Device rows. -/
theorem List_length_le_limit_witness :
    0 ≤ specPageParam ((⟨[], [("limit", "1")], none⟩ : Context).QueryArgs.lookup "limit") 10 ∧
    ((∃ us, ListDevice sampleClient ⟨[], [("limit", "1")], none⟩ =
          (⟨200, .entities us⟩, sampleClient) ∧
        (us.length : Int) ≤
          specPageParam ((⟨[], [("limit", "1")], none⟩ : Context).QueryArgs.lookup "limit") 10) ∧
    (∃ us, ListStatus sampleClient ⟨[], [("limit", "1")], none⟩ =
          (⟨200, .entities us⟩, sampleClient) ∧
        (us.length : Int) ≤
          specPageParam ((⟨[], [("limit", "1")], none⟩ : Context).QueryArgs.lookup "limit") 10) ∧
    (∃ us, ListRepairInvoice sampleClient ⟨[], [("limit", "1")], none⟩ =
          (⟨200, .entities us⟩, sampleClient) ∧
        (us.length : Int) ≤
          specPageParam ((⟨[], [("limit", "1")], none⟩ : Context).QueryArgs.lookup "limit") 10)) :=
  ⟨by decide, List_length_le_limit sampleClient ⟨[], [("limit", "1")], none⟩ (by decide)⟩

/-- Witness of C2: `limit=abc&offset=xyz` against the request with no query. -/
theorem List_pagination_witness :
    (ParseInt ((⟨[], [("limit", "abc"), ("offset", "xyz")], none⟩ : Context).Query
        "limit")).toOption = none ∧
    (ParseInt ((⟨[], [("limit", "abc"), ("offset", "xyz")], none⟩ : Context).Query
        "offset")).toOption = none ∧
    (ListDevice sampleClient ⟨[], [("limit", "abc"), ("offset", "xyz")], none⟩ =
        ListDevice sampleClient ⟨[], [], none⟩ ∧
      ListStatus sampleClient ⟨[], [("limit", "abc"), ("offset", "xyz")], none⟩ =
        ListStatus sampleClient ⟨[], [], none⟩ ∧
      ListRepairInvoice sampleClient ⟨[], [("limit", "abc"), ("offset", "xyz")], none⟩ =
        ListRepairInvoice sampleClient ⟨[], [], none⟩ ∧
      ListSymptom [] sampleClient ⟨[], [("limit", "abc"), ("offset", "xyz")], none⟩ =
        ListSymptom [] sampleClient ⟨[], [], none⟩) :=
  ⟨by decide, by decide,
    (List_pagination sampleClient ⟨[], [("limit", "abc"), ("offset", "xyz")], none⟩ []).2
      ⟨[], [], none⟩ (by decide) (by decide) (by decide) (by decide)⟩

theorem getHandler_not_found (k : Kind) (ctl : Client) (c : Context) (id : Int)
    (hp : ParseInt (c.Param "id") = .ok id) (h : ∀ e ∈ ctl.rows k, e.ID ≠ id) :
    getHandler k ctl c = (⟨404, .H_error (.repo .NotFoundError)⟩, ctl) := by
  rw [getHandler_def]
  rw [hp]
  simp only [Only_eq_notFound _ _ h]

theorem getHandler_keeps (k : Kind) (ctl : Client) (c : Context) :
    (getHandler k ctl c).2 = ctl := by
  rw [getHandler_def]
  split
  · rfl
  · split <;> rfl

theorem listHandler_keeps (k : Kind) (ctl : Client) (c : Context) :
    (listHandler k ctl c).2 = ctl := by
  rw [listHandler_def]
  split <;> rfl

theorem ListSymptom_keeps (symptoms : List Entity) (ctl : Client) (c : Context) :
    (ListSymptom symptoms ctl c).2 = ctl := by
  rw [ListSymptom_def]
  split <;> rfl

theorem createHandler_keeps (msg : String) (build : Entity → CreateBuilder) (k2 : Kind)
    (hk : ∀ obj, (build obj).kind ≠ k2) (ctl : Client) (c : Context) :
    (createHandler msg build ctl c).2.rows k2 = ctl.rows k2 := by
  rw [createHandler_def]
  split
  · rfl
  · rename_i obj _
    split
    · rfl
    · rename_i u ctl2 hs
      obtain ⟨_, hc⟩ := Save_ok _ _ _ _ hs
      show ctl2.rows k2 = ctl.rows k2
      rw [hc]
      exact rows_setRows_other _ _ _ _ (fun h => hk obj h.symm)

theorem DeleteOneID_keeps (k k2 : Kind) (hk : k2 ≠ k) (ctl ctl2 : Client) (id : Int)
    (h : DeleteOneID ctl k id = .ok ctl2) : ctl2.rows k2 = ctl.rows k2 := by
  unfold DeleteOneID at h
  split at h
  · injection h with h
    rw [← h]
    exact rows_setRows_other _ _ _ _ hk
  · cases h

theorem UpdateOne_keeps (k k2 : Kind) (hk : k2 ≠ k) (ctl ctl2 : Client) (obj u : Entity)
    (h : UpdateOne ctl k obj = .ok (u, ctl2)) : ctl2.rows k2 = ctl.rows k2 := by
  unfold UpdateOne at h
  simp only [] at h
  split at h
  · cases h
  · split at h
    · cases h
    · split at h
      · cases h
      · injection h with h
        injection h with _ h
        rw [← h]
        exact rows_setRows_other _ _ _ _ hk

theorem deleteHandler_keeps (k k2 : Kind) (hk : k2 ≠ k) (ctl : Client) (c : Context) :
    (deleteHandler k ctl c).2.rows k2 = ctl.rows k2 := by
  rw [deleteHandler_def]
  split
  · rfl
  · split
    · rfl
    · rename_i ctl2 hs
      exact DeleteOneID_keeps k k2 hk ctl ctl2 _ hs

theorem updateHandler_keeps (msg : String) (k k2 : Kind) (hk : k2 ≠ k) (ctl : Client)
    (c : Context) : (updateHandler msg k ctl c).2.rows k2 = ctl.rows k2 := by
  rw [updateHandler_def]
  split
  · rfl
  · split
    · rfl
    · split
      · rfl
      · rename_i u ctl2 hs
        exact UpdateOne_keeps k k2 hk ctl ctl2 _ u hs

/-- No handler writes a User row: each of the twenty handlers returns the store
with the User rows it was given.  A store without User rows, the only kind the
schemas do not declare, stays without them under every sequence of requests. -/
theorem handlers_keep_User (ctl : Client) (c : Context) (symptoms : List Entity) :
    ((CreateDevice ctl c).2.User = ctl.User ∧ (GetDevice ctl c).2.User = ctl.User ∧
      (ListDevice ctl c).2.User = ctl.User ∧ (UpdateDevice ctl c).2.User = ctl.User ∧
      (DeleteDevice ctl c).2.User = ctl.User) ∧
    ((CreateRepairInvoice ctl c).2.User = ctl.User ∧
      (GetRepairInvoice ctl c).2.User = ctl.User ∧
      (ListRepairInvoice ctl c).2.User = ctl.User ∧
      (UpdateRepairInvoice ctl c).2.User = ctl.User ∧
      (DeleteRepairInvoice ctl c).2.User = ctl.User) ∧
    ((CreateStatus ctl c).2.User = ctl.User ∧ (GetStatus ctl c).2.User = ctl.User ∧
      (ListStatus ctl c).2.User = ctl.User ∧ (UpdateStatus ctl c).2.User = ctl.User ∧
      (DeleteStatus ctl c).2.User = ctl.User) ∧
    ((CreateSymptom ctl c).2.User = ctl.User ∧ (GetSymptom ctl c).2.User = ctl.User ∧
      (ListSymptom symptoms ctl c).2.User = ctl.User ∧
      (UpdateSymptom ctl c).2.User = ctl.User ∧
      (DeleteSymptom ctl c).2.User = ctl.User) := by
  have hget : ∀ k, (getHandler k ctl c).2.User = ctl.User := fun k => by
    rw [getHandler_keeps]
  have hlist : ∀ k, (listHandler k ctl c).2.User = ctl.User := fun k => by
    rw [listHandler_keeps]
  have hcreate : ∀ (msg : String) (build : Entity → CreateBuilder),
      (∀ obj, (build obj).kind ≠ .User) → (createHandler msg build ctl c).2.User = ctl.User :=
    fun msg build hk => createHandler_keeps msg build .User hk ctl c
  have hdel : ∀ k, Kind.User ≠ k → (deleteHandler k ctl c).2.User = ctl.User :=
    fun k hk => deleteHandler_keeps k .User hk ctl c
  have hupd : ∀ msg k, Kind.User ≠ k → (updateHandler msg k ctl c).2.User = ctl.User :=
    fun msg k hk => updateHandler_keeps msg k .User hk ctl c
  refine ⟨⟨?_, hget _, hlist _, hupd _ _ (by decide), hdel _ (by decide)⟩,
    ⟨?_, hget _, hlist _, hupd _ _ (by decide), hdel _ (by decide)⟩,
    ⟨?_, hget _, hlist _, hupd _ _ (by decide), hdel _ (by decide)⟩,
    ⟨?_, hget _, ?_, hupd _ _ (by decide), hdel _ (by decide)⟩⟩
  · exact hcreate _ _ (fun _ h => Kind.noConfusion h)
  · exact hcreate _ _ (fun _ h => Kind.noConfusion h)
  · exact hcreate _ _ (fun _ h => Kind.noConfusion h)
  · exact hcreate _ _ (fun _ h => Kind.noConfusion h)
  · rw [ListSymptom_keeps]

/-- C4.  For a path identifier that parses to `id`: `GetDevice`, `GetStatus` and
`GetRepairInvoice` answer 404 with the repository's not-found error, hence with
no entity, when no row of their kind has the identifier (it was never created,
or was deleted); `GetSymptom` does so for every identifier on a store without
User rows, which is every store the handlers can produce from one
(`handlers_keep_User`), the schemas declaring no User.  The store is returned
unchanged. -/
theorem Get_absent_id_not_found (ctl : Client) (c : Context) (id : Int)
    (hp : ParseInt (c.Param "id") = .ok id) :
    ((∀ e ∈ ctl.Device, e.ID ≠ id) →
        GetDevice ctl c = (⟨404, .H_error (.repo .NotFoundError)⟩, ctl)) ∧
    ((∀ e ∈ ctl.Status, e.ID ≠ id) →
        GetStatus ctl c = (⟨404, .H_error (.repo .NotFoundError)⟩, ctl)) ∧
    ((∀ e ∈ ctl.RepairInvoice, e.ID ≠ id) →
        GetRepairInvoice ctl c = (⟨404, .H_error (.repo .NotFoundError)⟩, ctl)) ∧
    (ctl.User = [] →
        GetSymptom ctl c = (⟨404, .H_error (.repo .NotFoundError)⟩, ctl)) :=
  ⟨getHandler_not_found .Device ctl c id hp, getHandler_not_found .Status ctl c id hp,
    getHandler_not_found .RepairInvoice ctl c id hp,
    fun hu => getHandler_not_found .User ctl c id hp (fun e he => by
      have he2 : e ∈ ctl.User := he
      rw [hu] at he2
      cases he2)⟩

/-- Witness of C4: identifier 7 has no row in the sample store, which holds no
User row. -/
theorem Get_absent_id_not_found_witness :
    ParseInt ((idContext "7" none).Param "id") = .ok 7 ∧
      (∀ e ∈ sampleClient.Device, e.ID ≠ 7) ∧ sampleClient.User = [] ∧
      GetDevice sampleClient (idContext "7" none) =
        (⟨404, .H_error (.repo .NotFoundError)⟩, sampleClient) ∧
      GetSymptom sampleClient (idContext "7" none) =
        (⟨404, .H_error (.repo .NotFoundError)⟩, sampleClient) :=
  ⟨by decide, by decide, rfl,
    (Get_absent_id_not_found sampleClient (idContext "7" none) 7 (by decide)).1 (by decide),
    (Get_absent_id_not_found sampleClient (idContext "7" none) 7 (by decide)).2.2.2 rfl⟩

theorem any_IDEQ_false (rows : List Entity) (id : Int) (h : ∀ e ∈ rows, e.ID ≠ id) :
    rows.any (IDEQ id) = false := by
  rw [List.any_eq_false]
  intro e he
  simp [IDEQ, h e he]

theorem any_IDEQ_true (rows : List Entity) (id : Int) (h : ∃ e ∈ rows, e.ID = id) :
    rows.any (IDEQ id) = true := by
  rw [List.any_eq_true]
  obtain ⟨e, he, hid⟩ := h
  exact ⟨e, he, by simp [IDEQ, hid]⟩

theorem deleteHandler_absent (k : Kind) (ctl : Client) (c : Context) (id : Int)
    (hp : ParseInt (c.Param "id") = .ok id) (h : ∀ e ∈ ctl.rows k, e.ID ≠ id) :
    deleteHandler k ctl c = (⟨404, .H_error (.repo .NotFoundError)⟩, ctl) := by
  rw [deleteHandler_def]
  unfold DeleteOneID
  rw [hp]
  simp [any_IDEQ_false _ _ h]

theorem deleteHandler_present (k : Kind) (ctl : Client) (c : Context) (id : Int)
    (hp : ParseInt (c.Param "id") = .ok id) (h : ∃ e ∈ ctl.rows k, e.ID = id) :
    deleteHandler k ctl c =
      (⟨200, .H_result ("ok deleted " ++ toString id)⟩,
        ctl.setRows k ((ctl.rows k).filter fun e => decide (e.ID ≠ id))) := by
  rw [deleteHandler_def]
  unfold DeleteOneID
  rw [hp]
  simp [any_IDEQ_true _ _ h, IDEQ]

theorem deleteHandler_contract (k : Kind) (ctl : Client) (c : Context) (id : Int)
    (hp : ParseInt (c.Param "id") = .ok id) : DeleteContract (deleteHandler k) k ctl c id := by
  refine ⟨deleteHandler_absent k ctl c id hp, ?_⟩
  intro h
  rw [deleteHandler_present k ctl c id hp h]
  refine ⟨rfl, rfl, ?_⟩
  intro c2 hp2
  apply deleteHandler_absent _ _ _ id hp2
  intro e he
  rw [rows_setRows_same] at he
  simpa using (List.mem_filter.mp he).2

/-- C5.  For a request whose path identifier parses to `id`, each Delete handler
meets the Delete contract on the rows of its kind: without a row of that
identifier it answers 404 and leaves the store unchanged; with one it answers
200, the resulting store is the old one with exactly the rows of that identifier
removed from that kind, and a second Delete of the identifier answers 404. -/
theorem Delete_contract (ctl : Client) (c : Context) (id : Int)
    (hp : ParseInt (c.Param "id") = .ok id) :
    DeleteContract DeleteDevice .Device ctl c id ∧
      DeleteContract DeleteRepairInvoice .RepairInvoice ctl c id ∧
      DeleteContract DeleteStatus .Status ctl c id ∧
      DeleteContract DeleteSymptom .Symptom ctl c id :=
  ⟨deleteHandler_contract .Device ctl c id hp, deleteHandler_contract .RepairInvoice ctl c id hp,
    deleteHandler_contract .Status ctl c id hp, deleteHandler_contract .Symptom ctl c id hp⟩

/-- Witness of C5: deleting Device 1 of the sample store, then deleting it again. -/
theorem Delete_contract_witness :
    ParseInt ((idContext "1" none).Param "id") = .ok 1 ∧
      (∃ e ∈ sampleClient.rows .Device, e.ID = 1) ∧
      (DeleteDevice sampleClient (idContext "1" none)).1.code = 200 ∧
      DeleteDevice (DeleteDevice sampleClient (idContext "1" none)).2 (idContext "1" none) =
        (⟨404, .H_error (.repo .NotFoundError)⟩,
          (DeleteDevice sampleClient (idContext "1" none)).2) :=
  ⟨by decide, by decide,
    ((Delete_contract sampleClient (idContext "1" none) 1 (by decide)).1.2 (by decide)).1,
    ((Delete_contract sampleClient (idContext "1" none) 1 (by decide)).1.2 (by decide)).2.2
      (idContext "1" none) (by decide)⟩

theorem createHandler_rejected (msg : String) (build : Entity → CreateBuilder)
    (ctl : Client) (c : Context)
    (h : ∀ obj, c.ShouldBind = some obj → ∃ err, (build obj).Save ctl = .error err) :
    (createHandler msg build ctl c).1.code = 400 ∧ (createHandler msg build ctl c).2 = ctl := by
  rw [createHandler_def]
  cases hb : c.ShouldBind with
  | none => exact ⟨rfl, rfl⟩
  | some obj =>
    obtain ⟨err, he⟩ := h obj hb
    simp [he]

/-- C6.  `CreateRepairInvoice` sets no edge on the builder, so the required
`device` edge never resolves to an existing Device: every Create request for a
RepairInvoice, whatever its body, is answered 400 and leaves the store unchanged
(no RepairInvoice row is persisted). -/
theorem CreateRepairInvoice_rejected (ctl : Client) (c : Context) :
    (CreateRepairInvoice ctl c).1.code = 400 ∧ (CreateRepairInvoice ctl c).2 = ctl ∧
      (CreateRepairInvoice ctl c).2.RepairInvoice = ctl.RepairInvoice := by
  have h := createHandler_rejected "RepairInvoice binding failed"
    (fun obj => (Client.Create .RepairInvoice).Set "RepairInvoceId" (obj.intField "Age")) ctl c
    (fun obj _ => ⟨.ValidationError, rfl⟩)
  exact ⟨h.1, h.2, congrArg Client.RepairInvoice h.2⟩

/-- C7.  A Create request for a Status or a Symptom whose name is empty or absent
is answered 400 and leaves the store unchanged.  `CreateStatus` calls `SetAge`
and `SetName` only, so `Status_name` is never given and this holds for every
Status request; `CreateSymptom` passes `obj.Symptom` to `SetSymptomName`, and the
request has an empty or absent name when that value is the empty string (or the
body does not bind). -/
theorem Create_empty_name_rejected (ctl : Client) (c : Context)
    (h : ∀ obj, c.ShouldBind = some obj → obj.strField "Symptom" = .str "") :
    ((CreateStatus ctl c).1.code = 400 ∧ (CreateStatus ctl c).2 = ctl) ∧
      ((CreateSymptom ctl c).1.code = 400 ∧ (CreateSymptom ctl c).2 = ctl) := by
  constructor
  · exact createHandler_rejected "status binding failed"
      (fun obj => ((Client.Create .Status).Set "Age" (obj.intField "Age")).Set "Name"
        (obj.strField "Name")) ctl c (fun obj _ => ⟨.ValidationError, rfl⟩)
  · apply createHandler_rejected "Symptom binding failed"
      (fun obj => ((Client.Create .Symptom).Set "SymtomId" (obj.strField "Symptom")).Set
        "SymptomName" (obj.strField "Symptom")) ctl c
    intro obj hb
    refine ⟨.ValidationError, ?_⟩
    simp only [h obj hb]
    rfl

/-- Witness of C7: a Symptom body with an empty name, and a Status body, on the
sample store. -/
theorem Create_empty_name_rejected_witness :
    (∀ obj, (⟨[], [], some ⟨0, [("Symptom", .str "")], []⟩⟩ : Context).ShouldBind = some obj →
        obj.strField "Symptom" = .str "") ∧
      ((CreateStatus sampleClient ⟨[], [], some ⟨0, [("Symptom", .str "")], []⟩⟩).1.code = 400 ∧
        (CreateStatus sampleClient ⟨[], [], some ⟨0, [("Symptom", .str "")], []⟩⟩).2 =
          sampleClient) ∧
      ((CreateSymptom sampleClient ⟨[], [], some ⟨0, [("Symptom", .str "")], []⟩⟩).1.code = 400 ∧
        (CreateSymptom sampleClient ⟨[], [], some ⟨0, [("Symptom", .str "")], []⟩⟩).2 =
          sampleClient) :=
  ⟨fun obj hb => by cases hb; rfl,
    Create_empty_name_rejected sampleClient ⟨[], [], some ⟨0, [("Symptom", .str "")], []⟩⟩
      (fun obj hb => by cases hb; rfl)⟩

theorem updateHandler_overwrites (msg : String) (k : Kind) (ctl : Client) (c : Context)
    (id : Int) (obj : Entity) (hp : ParseInt (c.Param "id") = .ok id)
    (hb : c.ShouldBind = some obj) (h : UpdateAccepted k ctl id obj) :
    Overwritten (updateHandler msg k) k ctl c id obj := by
  obtain ⟨⟨e0, he0, hid0⟩, hreq, huniq⟩ := h
  have hmem : e0 ∈ (ctl.rows k).filter (IDEQ id) :=
    List.mem_filter.mpr ⟨he0, by simp [IDEQ, hid0]⟩
  cases hf : (ctl.rows k).filter (IDEQ id) with
  | nil => rw [hf] at hmem; cases hmem
  | cons old rest =>
    have hold : old ∈ (ctl.rows k).filter (IDEQ id) := by rw [hf]; exact List.mem_cons_self _ _
    obtain ⟨hold1, hold2⟩ := List.mem_filter.mp hold
    have hoid : old.ID = id := by simpa [IDEQ] using hold2
    have heq : updateHandler msg k ctl c =
        (⟨200, .entity { old with fields := obj.fields }⟩,
          ctl.setRows k ((ctl.rows k).map fun e =>
            if IDEQ id e then { e with fields := obj.fields } else e)) := by
      rw [updateHandler_def]
      unfold UpdateOne
      rw [hp, hb]
      simp only [hf, hreq, huniq]
      rfl
    refine ⟨{ old with fields := obj.fields }, heq, hoid, rfl, ?_, ?_⟩
    · rw [heq]
      simp only [rows_setRows_same]
      refine List.mem_map.mpr ⟨old, hold1, ?_⟩
      rw [if_pos hold2]
    · rw [heq]
      simp only [rows_setRows_same]
      intro e he hid
      obtain ⟨e1, he1, rfl⟩ := List.mem_map.mp he
      by_cases h1 : IDEQ id e1 = true
      · rw [if_pos h1]
      · rw [if_neg h1] at hid
        exact absurd (by simp [IDEQ, hid]) h1

/-- C8 (fails as stated).  Status 1 exists and the body binds, but its
`StatusName` is empty: `UpdateStatus` answers 400 "update failed" and the store
is unchanged, where the claim asks for 200 and an overwritten row. -/
theorem UpdateStatus_empty_name_fails :
    (∃ e ∈ sampleClient.Status, e.ID = 1) ∧
      UpdateStatus sampleClient (idContext "1" (some ⟨0, [("StatusName", .str "")], []⟩)) =
        (⟨400, .H_error (.text "update failed")⟩, sampleClient) := by
  decide

/-- C8 (amended).  For a path identifier that parses to `id`, a body that binds
to `obj`, and an input the repository accepts (a row has the identifier, the
declared non-empty fields are given non-empty, no unique field collides with
another row), each Update handler answers 200 with the updated entity, whose
fields are those of the input, and every row stored under the identifier
afterwards has exactly the fields of the input. -/
theorem Update_overwrites (ctl : Client) (c : Context) (id : Int) (obj : Entity)
    (hp : ParseInt (c.Param "id") = .ok id) (hb : c.ShouldBind = some obj) :
    (UpdateAccepted .Device ctl id obj → Overwritten UpdateDevice .Device ctl c id obj) ∧
    (UpdateAccepted .Status ctl id obj → Overwritten UpdateStatus .Status ctl c id obj) ∧
    (UpdateAccepted .RepairInvoice ctl id obj →
      Overwritten UpdateRepairInvoice .RepairInvoice ctl c id obj) ∧
    (UpdateAccepted .Symptom ctl id obj → Overwritten UpdateSymptom .Symptom ctl c id obj) :=
  ⟨updateHandler_overwrites _ .Device ctl c id obj hp hb,
    updateHandler_overwrites _ .Status ctl c id obj hp hb,
    updateHandler_overwrites _ .RepairInvoice ctl c id obj hp hb,
    updateHandler_overwrites _ .Symptom ctl c id obj hp hb⟩

/-- Witness of C8 (amended): Status 1 of the sample store renamed to "closed". -/
theorem Update_overwrites_witness :
    ParseInt ((idContext "1" (some ⟨0, [("StatusName", .str "closed")], []⟩)).Param "id") =
        .ok 1 ∧
      UpdateAccepted .Status sampleClient 1 ⟨0, [("StatusName", .str "closed")], []⟩ ∧
      Overwritten UpdateStatus .Status sampleClient
        (idContext "1" (some ⟨0, [("StatusName", .str "closed")], []⟩)) 1
        ⟨0, [("StatusName", .str "closed")], []⟩ :=
  ⟨by decide, ⟨by decide, by decide, by decide⟩,
    (Update_overwrites sampleClient
      (idContext "1" (some ⟨0, [("StatusName", .str "closed")], []⟩)) 1
      ⟨0, [("StatusName", .str "closed")], []⟩ (by decide) rfl).2.1
      ⟨by decide, by decide, by decide⟩⟩

theorem getHandler_bad_id (k : Kind) (ctl : Client) (c : Context) (err : NumError)
    (h : ParseInt (c.Param "id") = .error err) :
    getHandler k ctl c = (⟨400, .H_error (.parse err)⟩, ctl) := by
  rw [getHandler_def]
  rw [h]

theorem deleteHandler_bad_id (k : Kind) (ctl : Client) (c : Context) (err : NumError)
    (h : ParseInt (c.Param "id") = .error err) :
    deleteHandler k ctl c = (⟨400, .H_error (.parse err)⟩, ctl) := by
  rw [deleteHandler_def]
  rw [h]

theorem updateHandler_bad_id (msg : String) (k : Kind) (ctl : Client) (c : Context)
    (err : NumError) (h : ParseInt (c.Param "id") = .error err) :
    updateHandler msg k ctl c = (⟨400, .H_error (.parse err)⟩, ctl) := by
  rw [updateHandler_def]
  rw [h]

theorem idHandlers_bad_id (ctl : Client) (c : Context) (err : NumError)
    (h : ParseInt (c.Param "id") = .error err) :
    ∀ handler ∈ idHandlers, handler ctl c = (⟨400, .H_error (.parse err)⟩, ctl) := by
  intro handler hm
  simp only [idHandlers, List.mem_cons, List.mem_singleton, List.not_mem_nil, or_false] at hm
  rcases hm with rfl | rfl | rfl | rfl | rfl | rfl | rfl | rfl | rfl | rfl | rfl | rfl
  · exact getHandler_bad_id _ ctl c err h
  · exact updateHandler_bad_id _ _ ctl c err h
  · exact deleteHandler_bad_id _ ctl c err h
  · exact getHandler_bad_id _ ctl c err h
  · exact updateHandler_bad_id _ _ ctl c err h
  · exact deleteHandler_bad_id _ ctl c err h
  · exact getHandler_bad_id _ ctl c err h
  · exact updateHandler_bad_id _ _ ctl c err h
  · exact deleteHandler_bad_id _ ctl c err h
  · exact getHandler_bad_id _ ctl c err h
  · exact updateHandler_bad_id _ _ ctl c err h
  · exact deleteHandler_bad_id _ ctl c err h

/-- C9.  When the path identifier does not parse as a base-10 int64, every Get,
Update and Delete handler answers 400 with the parse error and returns the store
as it was; the response is the same on any other store state `ctl2` and for any
other request `c2` with that path identifier, whatever its body, so the store is
not read and the body plays no part. -/
theorem bad_id_short_circuits (ctl : Client) (c : Context) (err : NumError)
    (h : ParseInt (c.Param "id") = .error err) :
    ∀ handler ∈ idHandlers,
      handler ctl c = (⟨400, .H_error (.parse err)⟩, ctl) ∧
      ∀ (ctl2 : Client) (c2 : Context), c2.Param "id" = c.Param "id" →
        (handler ctl2 c2).1 = (handler ctl c).1 ∧ (handler ctl2 c2).2 = ctl2 := by
  intro handler hm
  refine ⟨idHandlers_bad_id ctl c err h handler hm, ?_⟩
  intro ctl2 c2 h2
  rw [idHandlers_bad_id ctl c err h handler hm,
    idHandlers_bad_id ctl2 c2 err (by rw [h2]; exact h) handler hm]
  exact ⟨rfl, rfl⟩

/-- Witness of C9: `UpdateDevice` with the path identifier "abc". -/
theorem bad_id_short_circuits_witness :
    ParseInt ((idContext "abc" none).Param "id") = .error ⟨"ParseInt", "abc", .ErrSyntax⟩ ∧
      UpdateDevice sampleClient (idContext "abc" none) =
        (⟨400, .H_error (.parse ⟨"ParseInt", "abc", .ErrSyntax⟩)⟩, sampleClient) ∧
      (UpdateDevice emptyClient (idContext "abc" (some ⟨0, [], []⟩))).1 =
        (UpdateDevice sampleClient (idContext "abc" none)).1 :=
  ⟨by decide,
    (bad_id_short_circuits sampleClient (idContext "abc" none) ⟨"ParseInt", "abc", .ErrSyntax⟩
      (by decide) UpdateDevice (by simp [idHandlers])).1,
    ((bad_id_short_circuits sampleClient (idContext "abc" none) ⟨"ParseInt", "abc", .ErrSyntax⟩
      (by decide) UpdateDevice (by simp [idHandlers])).2 emptyClient
        (idContext "abc" (some ⟨0, [], []⟩)) rfl).1⟩

theorem updateHandler_not_found (msg : String) (k : Kind) (ctl : Client) (c : Context)
    (id : Int) (obj : Entity) (hp : ParseInt (c.Param "id") = .ok id)
    (hb : c.ShouldBind = some obj) (h : ∀ e ∈ ctl.rows k, e.ID ≠ id) :
    UpdateOne ctl k { obj with ID := id } = .error .NotFoundError ∧
      updateHandler msg k ctl c = (⟨400, .H_error (.text "update failed")⟩, ctl) := by
  have hu : UpdateOne ctl k { obj with ID := id } = .error .NotFoundError := by
    unfold UpdateOne
    simp only [filter_IDEQ_eq_nil _ _ h]
  refine ⟨hu, ?_⟩
  rw [updateHandler_def]
  rw [hp, hb]
  simp only [hu]

theorem notFoundMapping (msg : String) (kq k : Kind) (ctl : Client) (c : Context) (id : Int)
    (hp : ParseInt (c.Param "id") = .ok id) :
    NotFoundMapping (getHandler kq) (updateHandler msg k) (deleteHandler k) kq k ctl c id :=
  ⟨getHandler_not_found kq ctl c id hp, fun h =>
    ⟨deleteHandler_absent k ctl c id hp h, fun obj hb =>
      updateHandler_not_found msg k ctl c id obj hp hb h⟩⟩

/-- C10 (fails as stated).  On the empty store the repository update of Device 1
fails with the not-found error, and `UpdateDevice` answers 400 "update failed",
not 404. -/
theorem UpdateDevice_not_found_is_400 :
    UpdateOne emptyClient .Device { (⟨0, [], []⟩ : Entity) with ID := 1 } =
        .error .NotFoundError ∧
      UpdateDevice emptyClient (idContext "1" (some ⟨0, [], []⟩)) =
        (⟨400, .H_error (.text "update failed")⟩, emptyClient) := by
  decide

/-- C10 (amended).  For a path identifier that parses to `id` and has no row in
the rows the handler addresses, every Get and Delete handler answers 404 with
the repository's not-found error, and every Update handler (the body binding)
answers 400 with "update failed"; the store is unchanged.  `GetSymptom`
addresses the User rows. -/
theorem not_found_mapping (ctl : Client) (c : Context) (id : Int)
    (hp : ParseInt (c.Param "id") = .ok id) :
    NotFoundMapping GetDevice UpdateDevice DeleteDevice .Device .Device ctl c id ∧
      NotFoundMapping GetRepairInvoice UpdateRepairInvoice DeleteRepairInvoice
        .RepairInvoice .RepairInvoice ctl c id ∧
      NotFoundMapping GetStatus UpdateStatus DeleteStatus .Status .Status ctl c id ∧
      NotFoundMapping GetSymptom UpdateSymptom DeleteSymptom .User .Symptom ctl c id :=
  ⟨notFoundMapping _ .Device .Device ctl c id hp,
    notFoundMapping _ .RepairInvoice .RepairInvoice ctl c id hp,
    notFoundMapping _ .Status .Status ctl c id hp,
    notFoundMapping _ .User .Symptom ctl c id hp⟩

/-- Witness of C10 (amended): identifier 9 has no Device row in the sample store. -/
theorem not_found_mapping_witness :
    ParseInt ((idContext "9" (some ⟨0, [], []⟩)).Param "id") = .ok 9 ∧
      (∀ e ∈ sampleClient.rows .Device, e.ID ≠ 9) ∧
      GetDevice sampleClient (idContext "9" (some ⟨0, [], []⟩)) =
        (⟨404, .H_error (.repo .NotFoundError)⟩, sampleClient) ∧
      DeleteDevice sampleClient (idContext "9" (some ⟨0, [], []⟩)) =
        (⟨404, .H_error (.repo .NotFoundError)⟩, sampleClient) :=
  ⟨by decide, by decide,
    (not_found_mapping sampleClient (idContext "9" (some ⟨0, [], []⟩)) 9 (by decide)).1.1
      (by decide),
    ((not_found_mapping sampleClient (idContext "9" (some ⟨0, [], []⟩)) 9 (by decide)).1.2
      (by decide)).1⟩

theorem createHandler_bind_failed (msg : String) (build : Entity → CreateBuilder)
    (ctl : Client) (c : Context) (hb : c.ShouldBind = none) :
    createHandler msg build ctl c = (⟨400, .H_error (.text msg)⟩, ctl) := by
  rw [createHandler_def]
  rw [hb]

theorem updateHandler_bind_failed (msg : String) (k : Kind) (ctl : Client) (c : Context)
    (id : Int) (hp : ParseInt (c.Param "id") = .ok id) (hb : c.ShouldBind = none) :
    updateHandler msg k ctl c = (⟨400, .H_error (.text msg)⟩, ctl) := by
  rw [updateHandler_def]
  rw [hp, hb]

/-- C11 (fails as stated).  The body of this Update request does not bind, and
its path identifier "x1" does not parse: `UpdateStatus` answers 400 with the
parse error of the identifier, which is not the fixed text "status binding
failed"; the identifier is checked before the body is bound. -/
theorem UpdateStatus_bad_id_before_binding :
    (idContext "x1" none).ShouldBind = none ∧
      UpdateStatus sampleClient (idContext "x1" none) =
        (⟨400, .H_error (.parse ⟨"ParseInt", "x1", .ErrSyntax⟩)⟩, sampleClient) ∧
      (UpdateStatus sampleClient (idContext "x1" none)).1.body ≠
        .H_error (.text "status binding failed") := by
  decide

/-- C11 (amended).  When the body does not bind, every Create handler answers 400
with its fixed binding text and returns the store as it was; so does every
Update handler when the path identifier parses.  The answer is the same for
every such request, whatever else it carries: the right-hand sides mention
neither the request nor the rows. -/
theorem bind_failure_fixed_message (ctl : Client) (c : Context)
    (hb : c.ShouldBind = none) :
    (CreateDevice ctl c = (⟨400, .H_error (.text "device binding failed")⟩, ctl) ∧
      CreateRepairInvoice ctl c =
        (⟨400, .H_error (.text "RepairInvoice binding failed")⟩, ctl) ∧
      CreateStatus ctl c = (⟨400, .H_error (.text "status binding failed")⟩, ctl) ∧
      CreateSymptom ctl c = (⟨400, .H_error (.text "Symptom binding failed")⟩, ctl)) ∧
    ((ParseInt (c.Param "id")).toOption ≠ none →
      UpdateDevice ctl c = (⟨400, .H_error (.text "device binding failed")⟩, ctl) ∧
      UpdateRepairInvoice ctl c =
        (⟨400, .H_error (.text "RepairInvoice binding failed")⟩, ctl) ∧
      UpdateStatus ctl c = (⟨400, .H_error (.text "status binding failed")⟩, ctl) ∧
      UpdateSymptom ctl c = (⟨400, .H_error (.text "symptom binding failed")⟩, ctl)) := by
  refine ⟨⟨createHandler_bind_failed _ _ ctl c hb, createHandler_bind_failed _ _ ctl c hb,
    createHandler_bind_failed _ _ ctl c hb, createHandler_bind_failed _ _ ctl c hb⟩, ?_⟩
  intro hp
  cases hid : ParseInt (c.Param "id") with
  | error err => simp [hid, Except.toOption] at hp
  | ok id =>
    exact ⟨updateHandler_bind_failed _ .Device ctl c id hid hb,
      updateHandler_bind_failed _ .RepairInvoice ctl c id hid hb,
      updateHandler_bind_failed _ .Status ctl c id hid hb,
      updateHandler_bind_failed _ .Symptom ctl c id hid hb⟩

/-- Witness of C11 (amended): a request with path identifier "1" whose body does
not bind, on the sample store. -/
theorem bind_failure_fixed_message_witness :
    (idContext "1" none).ShouldBind = none ∧
      (ParseInt ((idContext "1" none).Param "id")).toOption ≠ none ∧
      CreateDevice sampleClient (idContext "1" none) =
        (⟨400, .H_error (.text "device binding failed")⟩, sampleClient) ∧
      UpdateDevice sampleClient (idContext "1" none) =
        (⟨400, .H_error (.text "device binding failed")⟩, sampleClient) :=
  ⟨rfl, by decide,
    (bind_failure_fixed_message sampleClient (idContext "1" none) rfl).1.1,
    ((bind_failure_fixed_message sampleClient (idContext "1" none) rfl).2 (by decide)).1⟩

theorem createHandlerOn_status (repo : Repository) (msg : String)
    (build : Entity → CreateBuilder) (ctl : Client) (c : Context) :
    StatusContract (createHandlerOn repo msg build ctl c) (createSucceeds repo build ctl c) := by
  unfold createHandlerOn createSucceeds StatusContract
  cases hb : c.ShouldBind with
  | none => simp
  | some obj =>
    cases hs : repo.Save (build obj) ctl with
    | error err => simp [hs]
    | ok r =>
      obtain ⟨u, ctl2⟩ := r
      simp [hs]

theorem getHandlerOn_status (repo : Repository) (k : Kind) (ctl : Client) (c : Context) :
    StatusContract (getHandlerOn repo k ctl c) (getSucceeds repo k ctl c) := by
  unfold getHandlerOn getSucceeds StatusContract
  cases hp : ParseInt (c.Param "id") with
  | error err => simp
  | ok id =>
    cases hs : repo.Only (ctl.rows k) (IDEQ id) with
    | error err => simp [hs]
    | ok u => simp [hs]

theorem listHandlerOn_status (repo : Repository) (k : Kind) (ctl : Client) (c : Context) :
    StatusContract (listHandlerOn repo k ctl c) (listSucceeds repo k ctl c) := by
  unfold listHandlerOn listSucceeds StatusContract
  cases hs : repo.All (ctl.rows k) (pageParam c "limit" 10) (pageParam c "offset" 0) with
  | error err => simp [hs]
  | ok us => simp [hs]

theorem ListSymptomOn_status (repo : Repository) (symptoms : List Entity) (ctl : Client)
    (c : Context) :
    StatusContract (ListSymptomOn repo symptoms ctl c) (listSucceeds repo .User ctl c) := by
  unfold ListSymptomOn listSucceeds StatusContract
  cases hs : repo.All (ctl.rows .User) (pageParam c "limit" 10) (pageParam c "offset" 0) with
  | error err => simp [hs]
  | ok us => simp [hs]

theorem deleteHandlerOn_status (repo : Repository) (k : Kind) (ctl : Client) (c : Context) :
    StatusContract (deleteHandlerOn repo k ctl c) (deleteSucceeds repo k ctl c) := by
  unfold deleteHandlerOn deleteSucceeds StatusContract
  cases hp : ParseInt (c.Param "id") with
  | error err => simp
  | ok id =>
    cases hs : repo.DeleteOneID ctl k id with
    | error err => simp [hs]
    | ok ctl2 => simp [hs]

theorem updateHandlerOn_status (repo : Repository) (msg : String) (k : Kind) (ctl : Client)
    (c : Context) :
    StatusContract (updateHandlerOn repo msg k ctl c) (updateSucceeds repo k ctl c) := by
  unfold updateHandlerOn updateSucceeds StatusContract
  cases hp : ParseInt (c.Param "id") with
  | error err => simp
  | ok id =>
    cases hb : c.ShouldBind with
    | none => simp
    | some obj =>
      cases hs : repo.UpdateOne ctl k { obj with ID := id } with
      | error err => simp [hs]
      | ok r =>
        obtain ⟨u, ctl2⟩ := r
        simp [hs]

/-- C13.  A handler is a function giving one response for a store state and a
request.  Over every repository `repo`, that is for every outcome each store
call can have (the store's own failure included), the six handler bodies answer
with status 200, 400 or 404, never 500 or above, and the status is 200 exactly
when every step the handler has (parsing the path identifier, binding the body,
the store call) succeeds.  The twenty handlers are these bodies on the modelled
repository, with their fixed texts, builders and entity clients; `GetSymptom`
and `ListSymptom` make their store call on the User rows. -/
theorem handler_status_contract (repo : Repository) (ctl : Client) (c : Context)
    (symptoms : List Entity) (msg : String) (build : Entity → CreateBuilder) (k : Kind) :
    (StatusContract (createHandlerOn repo msg build ctl c) (createSucceeds repo build ctl c) ∧
      StatusContract (getHandlerOn repo k ctl c) (getSucceeds repo k ctl c) ∧
      StatusContract (listHandlerOn repo k ctl c) (listSucceeds repo k ctl c) ∧
      StatusContract (ListSymptomOn repo symptoms ctl c) (listSucceeds repo .User ctl c) ∧
      StatusContract (updateHandlerOn repo msg k ctl c) (updateSucceeds repo k ctl c) ∧
      StatusContract (deleteHandlerOn repo k ctl c) (deleteSucceeds repo k ctl c)) ∧
    (CreateDevice = createHandlerOn entRepository "device binding failed" DeviceCreate ∧
      GetDevice = getHandlerOn entRepository .Device ∧
      ListDevice = listHandlerOn entRepository .Device ∧
      UpdateDevice = updateHandlerOn entRepository "device binding failed" .Device ∧
      DeleteDevice = deleteHandlerOn entRepository .Device) ∧
    (CreateRepairInvoice =
        createHandlerOn entRepository "RepairInvoice binding failed" RepairInvoiceCreate ∧
      GetRepairInvoice = getHandlerOn entRepository .RepairInvoice ∧
      ListRepairInvoice = listHandlerOn entRepository .RepairInvoice ∧
      UpdateRepairInvoice =
        updateHandlerOn entRepository "RepairInvoice binding failed" .RepairInvoice ∧
      DeleteRepairInvoice = deleteHandlerOn entRepository .RepairInvoice) ∧
    (CreateStatus = createHandlerOn entRepository "status binding failed" StatusCreate ∧
      GetStatus = getHandlerOn entRepository .Status ∧
      ListStatus = listHandlerOn entRepository .Status ∧
      UpdateStatus = updateHandlerOn entRepository "status binding failed" .Status ∧
      DeleteStatus = deleteHandlerOn entRepository .Status) ∧
    (CreateSymptom = createHandlerOn entRepository "Symptom binding failed" SymptomCreate ∧
      GetSymptom = getHandlerOn entRepository .User ∧
      ListSymptom symptoms = ListSymptomOn entRepository symptoms ∧
      UpdateSymptom = updateHandlerOn entRepository "symptom binding failed" .Symptom ∧
      DeleteSymptom = deleteHandlerOn entRepository .Symptom) :=
  ⟨⟨createHandlerOn_status repo msg build ctl c, getHandlerOn_status repo k ctl c,
      listHandlerOn_status repo k ctl c, ListSymptomOn_status repo symptoms ctl c,
      updateHandlerOn_status repo msg k ctl c, deleteHandlerOn_status repo k ctl c⟩,
    ⟨rfl, rfl, rfl, rfl, rfl⟩, ⟨rfl, rfl, rfl, rfl, rfl⟩, ⟨rfl, rfl, rfl, rfl, rfl⟩,
    ⟨rfl, rfl, rfl, rfl, rfl⟩⟩

theorem digitChar_toNat (d : Nat) (h : d < 10) : (Nat.digitChar d).toNat = 48 + d := by
  interval_cases d <;> rfl

/-- One step of the digit loop on the character of a decimal digit `d`, from an
accumulator `n` with `n * 10 + d` in range. -/
theorem parseUintLoop_digit (d n : Nat) (rest : List Char) (hd : d < 10)
    (hn : n * 10 + d ≤ maxUint64) :
    parseUintLoop (Nat.digitChar d :: rest) n = parseUintLoop rest (n * 10 + d) := by
  have h1 := digitChar_toNat d hd
  have h2 : ¬ (n ≥ maxUint64 / 10 + 1) := by
    unfold maxUint64 at hn ⊢
    omega
  have h3 : ¬ (n * 10 + d > maxUint64) := by omega
  rw [parseUintLoop]
  simp only [h1]
  rw [if_pos (by omega), if_neg h2]
  simp only [Nat.add_sub_cancel_left]
  rw [if_neg h3]

/-- The digit loop reads back what `Nat.toDigitsCore` prints: the digits of `n`
in front of `ds` bring the accumulator from 0 to `n`. -/
theorem parseUintLoop_toDigitsCore (fuel n : Nat) (ds : List Char) (hf : n < fuel)
    (hn : n ≤ maxUint64) :
    parseUintLoop (Nat.toDigitsCore 10 fuel n ds) 0 = parseUintLoop ds n := by
  induction fuel generalizing n ds with
  | zero => omega
  | succ fuel ih =>
    rw [Nat.toDigitsCore]
    by_cases h0 : n / 10 = 0
    · rw [if_pos h0]
      have hlt : n < 10 := by omega
      rw [Nat.mod_eq_of_lt hlt, parseUintLoop_digit n 0 ds hlt (by omega)]
      simp
    · rw [if_neg h0]
      have hlt : n / 10 < fuel := by omega
      rw [ih (n / 10) _ hlt (by omega),
        parseUintLoop_digit (n % 10) (n / 10) ds (Nat.mod_lt _ (by omega)) (by omega)]
      congr 1
      omega

theorem parseUintLoop_toDigits (n : Nat) (hn : n ≤ maxUint64) :
    parseUintLoop (Nat.toDigits 10 n) 0 = .ok n := by
  unfold Nat.toDigits
  rw [parseUintLoop_toDigitsCore (n + 1) n [] (by omega) hn]
  rfl

/-- A list the digit loop accepts starts, when it is not empty, with a digit. -/
theorem parseUintLoop_ok_head (ch : Char) (rest : List Char) (acc n : Nat)
    (h : parseUintLoop (ch :: rest) acc = .ok n) : 48 ≤ ch.toNat ∧ ch.toNat ≤ 57 := by
  by_contra hc
  rw [parseUintLoop, if_neg hc] at h
  cases h

theorem toDigits_ne_nil (n : Nat) : Nat.toDigits 10 n ≠ [] := by
  have key : ∀ (fuel m : Nat) (ds : List Char), ds ≠ [] → Nat.toDigitsCore 10 fuel m ds ≠ [] := by
    intro fuel
    induction fuel with
    | zero => intro m ds h; simpa [Nat.toDigitsCore] using h
    | succ fuel ih =>
      intro m ds _
      rw [Nat.toDigitsCore]
      split
      · simp
      · exact ih _ _ (by simp)
  unfold Nat.toDigits
  rw [Nat.toDigitsCore]
  split
  · simp
  · exact key _ _ _ (by simp)

/-- The decimal text of a natural number below `2 ^ 64` is read back by
`ParseUint`. -/
theorem ParseUint_toDigits (n : Nat) (hn : n ≤ maxUint64) :
    ParseUint (Nat.toDigits 10 n) = .ok n := by
  unfold ParseUint
  have h := parseUintLoop_toDigits n hn
  cases hl : Nat.toDigits 10 n with
  | nil => exact absurd hl (toDigits_ne_nil n)
  | cons ch rest => simpa [hl] using h

/-- An identifier `ParseInt` returns lies in the `int64` range. -/
theorem ParseInt_ok_range (s : String) (n : Int) (h : ParseInt s = .ok n) :
    -(2 : Int) ^ 63 ≤ n ∧ n < (2 : Int) ^ 63 := by
  unfold ParseInt at h
  split at h
  · cases h
  · simp only [] at h
    split at h
    · cases h
    · cases h
    · split at h
      · cases h
      · split at h
        · cases h
        · rename_i un _ h1 h2
          injection h with h
          subst h
          split
          · have : ¬ (un > 2 ^ 63) := fun hgt => h2 ⟨by assumption, hgt⟩
            constructor <;> push_cast <;> omega
          · have : ¬ (un ≥ 2 ^ 63) := fun hge => h1 ⟨by assumption, hge⟩
            constructor <;> push_cast <;> omega

/-- The text `toString n` of an `int64` value is read back by `ParseInt` as `n`:
it is a decimal representation of `n`. -/
theorem ParseInt_toString (n : Int) (h1 : -(2 : Int) ^ 63 ≤ n) (h2 : n < (2 : Int) ^ 63) :
    ParseInt (toString n) = .ok n := by
  cases n with
  | ofNat m =>
    have hm : m < 2 ^ 63 := by
      have : (m : Int) < 2 ^ 63 := h2
      exact_mod_cast this
    have hp := ParseUint_toDigits m (by unfold maxUint64; omega)
    have hl := parseUintLoop_toDigits m (by unfold maxUint64; omega)
    have hdata : (toString (Int.ofNat m)).data = Nat.toDigits 10 m := rfl
    unfold ParseInt
    rw [hdata]
    cases hd : Nat.toDigits 10 m with
    | nil => exact absurd hd (toDigits_ne_nil m)
    | cons ch rest =>
      rw [hd] at hp hl
      have hdig := parseUintLoop_ok_head ch rest 0 m hl
      have hplus : ch ≠ '+' := by
        intro hc
        rw [hc] at hdig
        exact absurd hdig (by decide)
      have hminus : ch ≠ '-' := by
        intro hc
        rw [hc] at hdig
        exact absurd hdig (by decide)
      simp only [hplus, hminus, or_self, if_false, hp]
      simp
      omega
  | negSucc m =>
    have hm : m + 1 ≤ 2 ^ 63 := by
      have : -(2 : Int) ^ 63 ≤ Int.negSucc m := h1
      rw [Int.negSucc_eq] at this
      have h3 : ((m : Int) + 1) ≤ 2 ^ 63 := by omega
      exact_mod_cast h3
    have hp := ParseUint_toDigits (m + 1) (by unfold maxUint64; omega)
    have hdata : (toString (Int.negSucc m)).data = '-' :: Nat.toDigits 10 (m + 1) := by
      show ("-" ++ Nat.repr (m + 1)).data = _
      rw [String.data_append]
      rfl
    unfold ParseInt
    rw [hdata]
    simp only [or_true, if_true, hp]
    simp [Int.negSucc_eq]
    omega

theorem deleteHandler_ok (k : Kind) (ctl ctl2 : Client) (c : Context) (n : Int)
    (hp : ParseInt (c.Param "id") = .ok n) (hs : DeleteOneID ctl k n = .ok ctl2) :
    deleteHandler k ctl c = (⟨200, .H_result ("ok deleted " ++ toString n)⟩, ctl2) := by
  rw [deleteHandler_def]
  rw [hp]
  simp only [hs]

/-- C12.  When the path identifier parses to `n` and the store delete succeeds,
every Delete handler answers 200 with the body `result: "ok deleted "` followed
by `toString n`, and returns the store the delete produced.  That text is a
decimal representation of `n`: `ParseInt` reads it back as `n`, also when the
path wrote the identifier otherwise (a leading `+` or zeros). -/
theorem Delete_confirmation (ctl ctl2 : Client) (c : Context) (n : Int)
    (hp : ParseInt (c.Param "id") = .ok n) :
    ((DeleteOneID ctl .Device n = .ok ctl2 →
        DeleteDevice ctl c = (⟨200, .H_result ("ok deleted " ++ toString n)⟩, ctl2)) ∧
      (DeleteOneID ctl .RepairInvoice n = .ok ctl2 →
        DeleteRepairInvoice ctl c =
          (⟨200, .H_result ("ok deleted " ++ toString n)⟩, ctl2)) ∧
      (DeleteOneID ctl .Status n = .ok ctl2 →
        DeleteStatus ctl c = (⟨200, .H_result ("ok deleted " ++ toString n)⟩, ctl2)) ∧
      (DeleteOneID ctl .Symptom n = .ok ctl2 →
        DeleteSymptom ctl c = (⟨200, .H_result ("ok deleted " ++ toString n)⟩, ctl2))) ∧
    ParseInt (toString n) = .ok n :=
  ⟨⟨deleteHandler_ok .Device ctl ctl2 c n hp, deleteHandler_ok .RepairInvoice ctl ctl2 c n hp,
      deleteHandler_ok .Status ctl ctl2 c n hp, deleteHandler_ok .Symptom ctl ctl2 c n hp⟩,
    ParseInt_toString n (ParseInt_ok_range _ n hp).1 (ParseInt_ok_range _ n hp).2⟩

/-- Witness of C12: `DELETE /devices/+1` on the sample store deletes Device 1 and
answers "ok deleted 1". -/
theorem Delete_confirmation_witness :
    ParseInt ((idContext "+1" none).Param "id") = .ok 1 ∧
      DeleteOneID sampleClient .Device 1 =
        .ok (sampleClient.setRows .Device [⟨2, [("Age", .int 7), ("Name", .str "y")], []⟩]) ∧
      DeleteDevice sampleClient (idContext "+1" none) =
        (⟨200, .H_result "ok deleted 1"⟩,
          sampleClient.setRows .Device [⟨2, [("Age", .int 7), ("Name", .str "y")], []⟩]) :=
  ⟨by decide, by decide,
    (Delete_confirmation sampleClient
      (sampleClient.setRows .Device [⟨2, [("Age", .int 7), ("Name", .str "y")], []⟩])
      (idContext "+1" none) 1 (by decide)).1.1 (by decide)⟩

/-- Witness of C13: on a repository whose every call fails with the store's own
error, `ListDevice`'s body and `GetDevice`'s body (for `GET /devices/1`) do not
answer 200 and answer below 500. -/
theorem handler_status_contract_witness :
    (¬ listSucceeds failingRepository .Device sampleClient (idContext "1" none) ∧
      (listHandlerOn failingRepository .Device sampleClient (idContext "1" none)).1.code ≠ 200 ∧
      (listHandlerOn failingRepository .Device sampleClient (idContext "1" none)).1.code < 500) ∧
    (¬ getSucceeds failingRepository .Device sampleClient (idContext "1" none) ∧
      (getHandlerOn failingRepository .Device sampleClient (idContext "1" none)).1.code ≠ 200 ∧
      (getHandlerOn failingRepository .Device sampleClient (idContext "1" none)).1.code < 500) :=
  by
  have H := handler_status_contract failingRepository sampleClient (idContext "1" none) []
    "device binding failed" DeviceCreate .Device
  have hl : ¬ listSucceeds failingRepository .Device sampleClient (idContext "1" none) := by
    rintro ⟨us, h⟩
    cases h
  have hg : ¬ getSucceeds failingRepository .Device sampleClient (idContext "1" none) := by
    rintro ⟨id, _, u, h⟩
    cases h
  exact ⟨⟨hl, fun h => hl (H.1.2.2.1.2.1.mp h), H.1.2.2.1.2.2⟩,
    ⟨hg, fun h => hg (H.1.2.1.2.1.mp h), H.1.2.1.2.2⟩⟩

end SA63
